import Mathlib

/-!
Shallow embedding of the scheduling core of `src/app.py` (course/lecturer
timetabling system) and proofs about its specification claims.

Times of day are represented as minutes since midnight (the source stores
"HH:MM" strings and converts with `parse_time` / `t2m` before every
comparison, so the minute representation is exact).  Time ranges such as the
entries of `preferred_times` ("HH:MM-HH:MM" strings split on '-') are
represented as parsed `(start, end)` pairs; a malformed range without a '-'
is skipped by the source loop and is therefore not representable here.
-/

namespace Penjadwalan

/-- `times_overlap` from `schedule_sections_with_ortools` (src/app.py:5879):
two half-open intervals overlap iff `s1 < e2 and s2 < e1`. -/
def times_overlap (s1 e1 s2 e2 : Nat) : Bool :=
  decide (s1 < e2) && decide (s2 < e1)

/-- One entry of a lecturer's `unavailable_time_ranges`: a day name
(`"*"` matches every day) and a minute interval.  The source defaults
`start` to "00:00" and `end` to "23:59" when the keys are missing. -/
structure UnavailableBlock where
  day : String
  startT : Nat
  endT : Nat
deriving Repr, DecidableEq

/-- A lecturer's preference record (`preferences` sub-document of a user):
`available_days`, `preferred_times` (day → list of parsed ranges) and
`unavailable_time_ranges`. -/
structure Preferences where
  available_days : List String
  preferred_times : List (String × List (Nat × Nat))
  unavailable_time_ranges : List UnavailableBlock
deriving Repr, DecidableEq

/-- Whether an `unavailable_time_ranges` entry applies to `day`
(src/app.py:5927: `block_day == '*' or block_day == day`). -/
def blockMatchesDay (b : UnavailableBlock) (day : String) : Bool :=
  b.day == "*" || b.day == day

/-- `check_lecturer_preferences` (src/app.py:5901-5984).  Returns
`(allowed, score)`.  Python's `max(0, score - day_penalty)` coincides with
truncated `Nat` subtraction because the score is never negative. -/
def check_lecturer_preferences (prefs : Preferences) (day : String)
    (time_start time_end : Nat) (strict_mode : Bool) (is_online : Bool) :
    Bool × Nat :=
  -- unavailable_time_ranges: hard for physical classes, ignored when online
  if !is_online &&
      prefs.unavailable_time_ranges.any (fun b =>
        blockMatchesDay b day && times_overlap time_start time_end b.startT b.endT) then
    (false, 0)
  else
    let available_days := prefs.available_days
    if !available_days.isEmpty && !available_days.contains day && strict_mode then
      (false, 0)
    else
      let day_penalty : Nat :=
        if !available_days.isEmpty && !available_days.contains day then 30 else 0
      let base : Nat :=
        if !available_days.isEmpty && available_days.contains day then 75 else 50
      let score : Nat :=
        match prefs.preferred_times.lookup day with
        | some day_prefs =>
          if !day_prefs.isEmpty then
            if day_prefs.any (fun r =>
                decide (r.1 ≤ time_start) && decide (time_end ≤ r.2)) then 100
            else 60
          else base
        | none => base
      (true, score - day_penalty)

/-- `get_match_quality` (src/app.py:5885-5899): pure banding of the score. -/
def get_match_quality (score : Nat) : String :=
  if 90 ≤ score then "Excellent"
  else if 70 ≤ score then "Good"
  else if 50 ≤ score then "Acceptable"
  else "Poor"

/-! ### Helper predicates used to state the corrected scoring claim -/

/-- The day has a non-empty `preferred_times` list in `prefs`. -/
def hasDayTimePrefs (prefs : Preferences) (day : String) : Bool :=
  match prefs.preferred_times.lookup day with
  | some l => !l.isEmpty
  | none => false

/-- The slot is fully contained in one of the day's `preferred_times` ranges. -/
def slotInPreferredTimes (prefs : Preferences) (day : String)
    (time_start time_end : Nat) : Bool :=
  match prefs.preferred_times.lookup day with
  | some l => l.any (fun r => decide (r.1 ≤ time_start) && decide (time_end ≤ r.2))
  | none => false

/-- The score value `check_lecturer_preferences` assigns to an allowed slot,
written out as the claim's corrected score table. -/
def allowedSlotScore (prefs : Preferences) (day : String)
    (time_start time_end : Nat) (strict_mode : Bool) : Nat :=
  (if hasDayTimePrefs prefs day then
    (if slotInPreferredTimes prefs day time_start time_end then 100 else 60)
   else if !prefs.available_days.isEmpty && prefs.available_days.contains day then 75
   else 50) -
  (if !strict_mode && !prefs.available_days.isEmpty
      && !prefs.available_days.contains day then 30 else 0)

/-- Score characterization used by C2 and C10: an allowed slot's score is
exactly `allowedSlotScore` (the preference scoring at src/app.py:5935-5984
does not depend on `is_online` once the slot is allowed). -/
theorem check_lecturer_preferences_allowed_score (prefs : Preferences)
    (day : String) (ts te : Nat) (strict_mode is_online : Bool)
    (h : (check_lecturer_preferences prefs day ts te strict_mode is_online).1 = true) :
    (check_lecturer_preferences prefs day ts te strict_mode is_online).2 =
      allowedSlotScore prefs day ts te strict_mode := by
  by_cases h1 : (!is_online && prefs.unavailable_time_ranges.any (fun b =>
      blockMatchesDay b day && times_overlap ts te b.startT b.endT)) = true
  · exfalso
    unfold check_lecturer_preferences at h
    rw [if_pos h1] at h
    simp at h
  · by_cases h2 : (!prefs.available_days.isEmpty && !prefs.available_days.contains day
        && strict_mode) = true
    · exfalso
      unfold check_lecturer_preferences at h
      rw [if_neg h1, if_pos h2] at h
      simp at h
    · unfold check_lecturer_preferences
      rw [if_neg h1, if_neg h2]
      dsimp only
      unfold allowedSlotScore hasDayTimePrefs slotInPreferredTimes
      have hpen : (if (!prefs.available_days.isEmpty
            && !prefs.available_days.contains day) = true then (30:Nat) else 0) =
          (if (!strict_mode && !prefs.available_days.isEmpty
            && !prefs.available_days.contains day) = true then (30:Nat) else 0) := by
        cases he : prefs.available_days.isEmpty <;>
          cases hc : prefs.available_days.contains day <;>
          cases strict_mode <;> simp_all
      cases hl : prefs.preferred_times.lookup day with
      | none => simp only [hl]; rw [hpen]; simp
      | some day_prefs => simp only [hl]; rw [hpen]

/-- Claim C10: for every input, the preference model's score lies in
[0,100] (it is a `Nat`, hence ≥ 0), and a rejected slot always carries
score exactly 0, so every rejected slot bands as Poor. -/
theorem preference_score_range (prefs : Preferences) (day : String)
    (ts te : Nat) (strict_mode is_online : Bool) :
    ((check_lecturer_preferences prefs day ts te strict_mode is_online).1 = false →
      (check_lecturer_preferences prefs day ts te strict_mode is_online).2 = 0) ∧
    (check_lecturer_preferences prefs day ts te strict_mode is_online).2 ≤ 100 := by
  by_cases h1 : (!is_online && prefs.unavailable_time_ranges.any (fun b =>
      blockMatchesDay b day && times_overlap ts te b.startT b.endT)) = true
  · unfold check_lecturer_preferences
    rw [if_pos h1]
    exact ⟨fun _ => rfl, by omega⟩
  · by_cases h2 : (!prefs.available_days.isEmpty && !prefs.available_days.contains day
        && strict_mode) = true
    · unfold check_lecturer_preferences
      rw [if_neg h1, if_pos h2]
      exact ⟨fun _ => rfl, by omega⟩
    · have hallow : (check_lecturer_preferences prefs day ts te strict_mode is_online).1 = true := by
        unfold check_lecturer_preferences
        rw [if_neg h1, if_neg h2]
      constructor
      · intro hfalse
        rw [hallow] at hfalse
        exact absurd hfalse (by simp)
      · rw [check_lecturer_preferences_allowed_score prefs day ts te strict_mode is_online hallow]
        unfold allowedSlotScore
        have hbase : (if hasDayTimePrefs prefs day then
            (if slotInPreferredTimes prefs day ts te then 100 else 60)
           else if !prefs.available_days.isEmpty && prefs.available_days.contains day then (75:Nat)
           else 50) ≤ 100 := by
          split
          · split <;> omega
          · split <;> omega
        omega

/-- Witness for C10 at a concrete input. -/
theorem preference_score_range_witness :
    ((check_lecturer_preferences ⟨["Senin"], [], []⟩ "Senin" 480 580 true false).1 = false →
      (check_lecturer_preferences ⟨["Senin"], [], []⟩ "Senin" 480 580 true false).2 = 0) ∧
    (check_lecturer_preferences ⟨["Senin"], [], []⟩ "Senin" 480 580 true false).2 ≤ 100 :=
  preference_score_range ⟨["Senin"], [], []⟩ "Senin" 480 580 true false

/-- Concrete preferences used in the C2 counterexample: available on Senin
with a preferred window 08:00-10:00 on Senin. -/
def prefsC2 : Preferences :=
  ⟨["Senin"], [("Senin", [(480, 600)])], []⟩

/-- Counterexample to claim C2 as stated: the slot Senin 14:00-15:40 is
allowed for `prefsC2` (physical, strict mode) yet scores 60 — not 50, 75 or
100 — because the day has a non-empty `preferred_times` list that does not
contain the interval. -/
theorem c2_counterexample :
    (check_lecturer_preferences prefsC2 "Senin" 840 940 true false).1 = true ∧
    (check_lecturer_preferences prefsC2 "Senin" 840 940 true false).2 ≠ 50 ∧
    (check_lecturer_preferences prefsC2 "Senin" 840 940 true false).2 ≠ 75 ∧
    (check_lecturer_preferences prefsC2 "Senin" 840 940 true false).2 ≠ 100 := by
  refine ⟨rfl, ?_, ?_, ?_⟩ <;> decide

/-- Claim C2 (amended): for every allowed physical slot the score equals
the corrected table `allowedSlotScore`: 100 when the interval is contained
in one of the day's `preferredTimes` ranges, 60 when that day has a
non-empty `preferredTimes` list not containing the interval, otherwise 75
when the day is in a non-empty `availableDays` and 50 otherwise; in relaxed
mode 30 is subtracted when the day is outside a non-empty `availableDays`. -/
theorem c2_amended_allowed_physical_score (prefs : Preferences) (day : String)
    (ts te : Nat) (strict_mode : Bool)
    (h : (check_lecturer_preferences prefs day ts te strict_mode false).1 = true) :
    (check_lecturer_preferences prefs day ts te strict_mode false).2 =
      allowedSlotScore prefs day ts te strict_mode :=
  check_lecturer_preferences_allowed_score prefs day ts te strict_mode false h

/-- Witness for the amended C2 theorem at the concrete input of the
counterexample (where the table yields 60). -/
theorem c2_amended_witness :
    (check_lecturer_preferences prefsC2 "Senin" 840 940 true false).1 = true ∧
    (check_lecturer_preferences prefsC2 "Senin" 840 940 true false).2 =
      allowedSlotScore prefsC2 "Senin" 840 940 true :=
  ⟨rfl, c2_amended_allowed_physical_score prefsC2 "Senin" 840 940 true rfl⟩

/-- Preferences with a wildcard blocked range 08:00-17:00 (C3 input). -/
def prefsC3blocked : Preferences :=
  ⟨["Senin"], [], [⟨"*", 480, 1020⟩]⟩

/-- The same preferences without the blocked range. -/
def prefsC3free : Preferences :=
  ⟨["Senin"], [], []⟩

/-- Claim C3, evaluated at the failing input: an online slot overlapping a
blocked range is indeed not rejected (first half of the claim holds), but
its score is identical to the score of the same slot without any blocked
range — no soft penalty is applied, although the source comments say
"Allow but will reduce score below" (src/app.py:5929-5931). -/
theorem c3_online_block_score_unchanged :
    check_lecturer_preferences prefsC3blocked "Senin" 480 580 true true = (true, 75) ∧
    check_lecturer_preferences prefsC3free "Senin" 480 580 true true = (true, 75) := by
  constructor <;> decide

/-! ### Canonical time blocks (src/app.py:56-82)

The source stores blocks as "HH:MM-HH:MM" strings; they are represented
here as `(startMinute, endMinute)` pairs. -/

/-- `SKS_TO_MINUTES` (src/app.py:58), commented in the source as
"1-2 SKS = 100 minutes, 3 SKS = 150 minutes". -/
def SKS_TO_MINUTES : Nat → Option Nat
  | 1 => some 100
  | 2 => some 100
  | 3 => some 150
  | _ => none

/-- `TIMEBLOCKS` dict lookup with the source's `.get(sks, TIMEBLOCKS[3])`
default (src/app.py:61-67, 82). -/
def TIMEBLOCKS_get (sks : Nat) : List (Nat × Nat) :=
  match sks with
  | 1 => [(480, 530), (530, 580), (580, 630), (630, 680), (680, 730),
          (840, 890), (890, 940), (940, 990)]
  | 2 => [(480, 580), (580, 680), (630, 730), (680, 780),
          (840, 940), (940, 1040)]
  | 3 => [(480, 630), (580, 730), (630, 780), (840, 990)]
  | _ => [(480, 630), (580, 730), (630, 780), (840, 990)]

/-- `TIMEBLOCKS_JUMAT` dict lookup with the source's default
(src/app.py:69-76, 81). -/
def TIMEBLOCKS_JUMAT_get (sks : Nat) : List (Nat × Nat) :=
  match sks with
  | 1 => [(480, 530), (530, 580), (580, 630), (630, 680), (680, 730),
          (840, 890), (890, 940), (940, 990)]
  | 2 => [(480, 580), (580, 680), (630, 730),
          (840, 940), (940, 1040)]
  | 3 => [(480, 630), (580, 730), (840, 990)]
  | _ => [(480, 630), (580, 730), (840, 990)]

/-- `get_timeblocks_for_day` (src/app.py:78-82). -/
def get_timeblocks_for_day (day : String) (sks : Nat) : List (Nat × Nat) :=
  if day == "Jumat" then TIMEBLOCKS_JUMAT_get sks else TIMEBLOCKS_get sks

/-- `get_timeslots_for_day_hybrid` (src/app.py:5037-5049). -/
def get_timeslots_for_day_hybrid (day : String) : List (Nat × Nat) :=
  if day == "Jumat" then
    [(480, 530), (530, 580), (580, 630), (630, 680),
     (830, 880), (880, 930), (930, 980), (980, 1030)]
  else
    [(480, 530), (530, 580), (580, 630), (630, 680), (680, 730), (730, 780),
     (839, 889), (889, 939), (939, 989), (989, 1039), (1039, 1089)]

/-- `get_duration_slots_hybrid` (src/app.py:5051-5053). -/
def get_duration_slots_hybrid (sks : Nat) : Nat :=
  if sks = 1 ∨ sks = 2 then 2 else 3

/-- The placement extraction of `run_ortools_scheduling_hybrid`
(src/app.py:5155-5160): start of the chosen slot, end of the slot
`duration - 1` further (clamped to the last slot of the day).  Returns
`(start, end)` when `t_idx` addresses a slot. -/
def hybrid_extracted_span (day : String) (t_idx sks : Nat) :
    Option (Nat × Nat) :=
  let timeslots := get_timeslots_for_day_hybrid day
  if t_idx < timeslots.length then
    let duration := get_duration_slots_hybrid sks
    let end_idx := min (t_idx + duration - 1) (timeslots.length - 1)
    some ((timeslots.getD t_idx (0, 0)).1, (timeslots.getD end_idx (0, 0)).2)
  else none

/-- Claim C4, evaluated at the failing inputs: (i) for a 1-credit section
the legal time blocks offered on Senin are 50 minutes long (e.g.
08:00-08:50), although the claim — and the source's own `SKS_TO_MINUTES`
constant with its comment — say a 1-2 credit section lasts 100 minutes;
(ii) the hybrid OR-Tools extractor, which may be handed any slot index by
the solver, yields a 159-minute span (12:10-14:49, crossing the break)
for a 2-credit section placed at slot 5 of Senin. -/
theorem c4_one_sks_block_is_50_minutes :
    ((480, 530) ∈ get_timeblocks_for_day "Senin" 1 ∧
      530 - 480 = 50 ∧
      SKS_TO_MINUTES 1 = some 100 ∧
      (50 : Nat) ≠ 100) ∧
    (hybrid_extracted_span "Senin" 5 2 = some (730, 889) ∧
      889 - 730 = 159 ∧
      (159 : Nat) ≠ 100) := by
  refine ⟨⟨?_, rfl, rfl, by omega⟩, ⟨by decide, rfl, by omega⟩⟩
  decide

/-! ### Restrictiveness score (src/app.py:6168-6197) -/

/-- `calculate_restrictiveness` (src/app.py:6168-6190).  The source takes
a lecturer name and looks up `lecturer_preferences[lect]` and
`lecturer_sections_map[lect]`; the looked-up preference record and section
count are passed directly here.  The 100-point-per-missing-day term is
added only when `available_days` is non-empty. -/
def calculate_restrictiveness (prefs : Preferences) (num_sections : Nat) : Int :=
  (if !prefs.available_days.isEmpty then
    (5 - (prefs.available_days.length : Int)) * 100
   else 0)
  + (prefs.unavailable_time_ranges.length : Int) * 50
  + (num_sections : Int) * 10

/-- Entry of `lecturer_sections_map.items()` as consumed by the sort at
src/app.py:6193-6197: the lecturer's preference record and section count. -/
structure LecturerEntry where
  prefs : Preferences
  num_sections : Nat

/-- Sort key of the lecturer ordering. -/
def restrictKey (e : LecturerEntry) : Int :=
  calculate_restrictiveness e.prefs e.num_sections

/-- `sorted(lecturer_sections_map.items(), key=calculate_restrictiveness,
reverse=True)` (src/app.py:6193-6197).  Python's stable sort with
`reverse=True` yields a stable non-increasing arrangement by key, which
`List.insertionSort` with the relation `restrictKey b ≤ restrictKey a`
reproduces exactly (ties keep their original order in both). -/
def sorted_lecturers (l : List LecturerEntry) : List LecturerEntry :=
  l.insertionSort (fun a b => restrictKey b ≤ restrictKey a)

/-- Counterexample to claim C6 as stated: a lecturer with empty
`availableDays`, no blocked ranges and no sections scores 0, while the
claimed formula 100×(5−|availableDays|)+50×0+10×0 gives 500. -/
theorem c6_counterexample :
    calculate_restrictiveness ⟨[], [], []⟩ 0 = 0 ∧
    100 * ((5 : Int) - 0) + 50 * 0 + 10 * 0 = 500 ∧
    (0 : Int) ≠ 500 := by
  refine ⟨rfl, by norm_num, by norm_num⟩

/-- Claim C6 (amended): the restrictiveness score equals
100×(5 − |availableDays|) + 50×|unavailableTimeRanges| + 10×(section
count) whenever `availableDays` is non-empty, and omits the first term
(counting it as 0) when `availableDays` is empty; lecturers are scheduled
in non-increasing order of this score. -/
theorem c6_amended_restrictiveness (prefs : Preferences) (n : Nat)
    (l : List LecturerEntry) :
    (prefs.available_days ≠ [] →
      calculate_restrictiveness prefs n =
        100 * (5 - (prefs.available_days.length : Int))
          + 50 * (prefs.unavailable_time_ranges.length : Int) + 10 * (n : Int)) ∧
    (prefs.available_days = [] →
      calculate_restrictiveness prefs n =
        50 * (prefs.unavailable_time_ranges.length : Int) + 10 * (n : Int)) ∧
    List.Sorted (fun a b => restrictKey b ≤ restrictKey a) (sorted_lecturers l) := by
  refine ⟨?_, ?_, ?_⟩
  · intro h
    unfold calculate_restrictiveness
    rw [if_pos (by simpa using h)]
    ring
  · intro h
    unfold calculate_restrictiveness
    rw [if_neg (by simp [h])]
    ring
  · haveI : IsTotal LecturerEntry (fun a b => restrictKey b ≤ restrictKey a) :=
      ⟨fun a b => le_total _ _⟩
    haveI : IsTrans LecturerEntry (fun a b => restrictKey b ≤ restrictKey a) :=
      ⟨fun _ _ _ h1 h2 => le_trans h2 h1⟩
    exact List.sorted_insertionSort _ l

/-- Witness for the amended C6 theorem at a concrete input. -/
theorem c6_amended_witness :
    (["Senin"] ≠ ([] : List String) →
      calculate_restrictiveness ⟨["Senin"], [], []⟩ 2 =
        100 * (5 - (1 : Int)) + 50 * 0 + 10 * 2) ∧
    (["Senin"] = ([] : List String) →
      calculate_restrictiveness ⟨["Senin"], [], []⟩ 2 = 50 * 0 + 10 * 2) ∧
    List.Sorted (fun a b => restrictKey b ≤ restrictKey a)
      (sorted_lecturers [⟨⟨[], [], []⟩, 1⟩, ⟨⟨["Senin"], [], []⟩, 0⟩]) := by
  have h := c6_amended_restrictiveness ⟨["Senin"], [], []⟩ 2
    [⟨⟨[], [], []⟩, 1⟩, ⟨⟨["Senin"], [], []⟩, 0⟩]
  simpa using h

/-! ### Rebalancing donor-candidate ordering (src/app.py:6690-6703) -/

/-- A movable candidate on a donor day: its currently placed room (from
`schedule_result`), its `is_lab` flag and its `sks` (from `sections`). -/
structure DonorCandidate where
  room : String
  is_lab : Bool
  sks : Nat
deriving Repr, DecidableEq

/-- The sort key tuple `(room == 'ONLINE', not is_lab, sks)` of
src/app.py:6697-6701. -/
def donorKey (c : DonorCandidate) : Bool × Bool × Nat :=
  (c.room == "ONLINE", !c.is_lab, c.sks)

/-- Strict lexicographic comparison of Python tuples
`(bool, bool, int)` with `False < True`. -/
def donorKeyLt (x y : Bool × Bool × Nat) : Bool :=
  (!x.1 && y.1) ||
  (x.1 == y.1 && ((!x.2.1 && y.2.1) || (x.2.1 == y.2.1 && decide (x.2.2 < y.2.2))))

/-- The donor-candidate ordering `sorted(key=donorKey, reverse=True)`
(src/app.py:6695-6703): stable, non-increasing by the key tuple. -/
def sortDonorCandidates (l : List DonorCandidate) : List DonorCandidate :=
  l.insertionSort (fun a b => donorKeyLt (donorKey a) (donorKey b) = false)

/-- Claim C7, evaluated at the failing input: among two comparable
(physical, non-lab) donor candidates the one with the LARGER sks is tried
first — `reverse=True` applies to the whole key tuple, so the final `sks`
component is also sorted descending, although both the claim and the
source's own comment "smaller SKS first" (src/app.py:6700) ask for
ascending sks. -/
theorem c7_larger_sks_sorted_first :
    sortDonorCandidates [⟨"Infor 1", false, 2⟩, ⟨"Infor 2", false, 3⟩] =
      [⟨"Infor 2", false, 3⟩, ⟨"Infor 1", false, 2⟩] ∧
    (3 : Nat) > 2 := by
  constructor
  · decide
  · omega

/-! ### Conflict detectors

`check_schedule_conflicts` (src/app.py:2511-2603; this later definition
shadows the legacy one at line 490) and `build_conflict_report`
(src/app.py:2104-2183).  Missing or empty (falsy) string fields are
modelled as `none`; Mongo ObjectIds as `Nat`; times as parsed minutes. -/

/-- One document of the schedules collection as consumed by the conflict
detectors. -/
structure CSlot where
  day : Option String
  room : Option String
  dosen : Option String
  startT : Option Nat
  endT : Option Nat
  course_name : Option String
  section_name : Option String
  sks : Option Nat
  mongoId : Option Nat
deriving Repr, DecidableEq

/-- Append `v` to the group of key `k`, creating the group at the end when
absent (Python `defaultdict(list)` with insertion-ordered keys). -/
def groupAppend {κ ν : Type} [BEq κ] (k : κ) (v : ν) :
    List (κ × List ν) → List (κ × List ν)
  | [] => [(k, [v])]
  | (k0, vs) :: rest =>
    if k0 == k then (k0, vs ++ [v]) :: rest else (k0, vs) :: groupAppend k v rest

/-- All ordered pairs `(l[i], l[j])` with `i < j`, in the double-loop order
of the source. -/
def orderedPairs {α : Type} : List α → List (α × α)
  | [] => []
  | x :: xs => xs.map (fun y => (x, y)) ++ orderedPairs xs

/-- Entry of `lecturer_schedule` (src/app.py:2548). -/
structure LectBooking where
  day : String
  s : Nat
  e : Nat
  course : String
  room : String
  mongoId : Option Nat
deriving Repr, DecidableEq

/-- Entry of `room_schedule` (src/app.py:2552). -/
structure RoomBooking where
  s : Nat
  e : Nat
  course : String
  lect : Option String
  mongoId : Option Nat
deriving Repr, DecidableEq

/-- A lecturer conflict record (src/app.py:2564-2575; the "HH:MM-HH:MM"
string formatting is represented by the minute pairs themselves). -/
structure LecturerConflictRec where
  lecturer : String
  day : String
  course1 : String
  room1 : String
  time1 : Nat × Nat
  course2 : String
  room2 : String
  time2 : Nat × Nat
  id1 : Option Nat
  id2 : Option Nat
deriving Repr, DecidableEq

/-- A room conflict record (src/app.py:2587-2598). -/
structure RoomConflictRec where
  room : String
  day : String
  course1 : String
  lecturer1 : Option String
  time1 : Nat × Nat
  course2 : String
  lecturer2 : Option String
  time2 : Nat × Nat
  id1 : Option Nat
  id2 : Option Nat
deriving Repr, DecidableEq

/-- Result of `check_schedule_conflicts`. -/
structure ConflictsResult where
  lecturer_conflicts : List LecturerConflictRec
  room_conflicts : List RoomConflictRec
deriving Repr, DecidableEq

/-- Build `lecturer_schedule` and `room_schedule` from the slot list
(src/app.py:2526-2552): slots missing day, room, start or end are skipped;
a lecturer booking needs a lecturer; a room booking needs a room that is
not "ONLINE". -/
def conflictGroupsStep
    (acc : List (String × List LectBooking) ×
           List ((String × String) × List RoomBooking)) (slot : CSlot) :
    List (String × List LectBooking) × List ((String × String) × List RoomBooking) :=
  match slot.day, slot.room, slot.startT, slot.endT with
  | some day, some room, some s, some e =>
    let course := slot.course_name.getD "Unknown"
    -- the room-map update acts on the lecturer-updated accumulator, whose
    -- room component is unchanged, so the two updates are independent
    (match slot.dosen with
     | some lect => groupAppend lect ⟨day, s, e, course, room, slot.mongoId⟩ acc.1
     | none => acc.1,
     if room ≠ "ONLINE" then
       groupAppend (day, room) ⟨s, e, course, slot.dosen, slot.mongoId⟩ acc.2
     else acc.2)
  | _, _, _, _ => acc

/-- Folding `conflictGroupsStep` over the whole schedule
(src/app.py:2526-2552). -/
def buildConflictGroups (schedule : List CSlot) :
    List (String × List LectBooking) × List ((String × String) × List RoomBooking) :=
  schedule.foldl conflictGroupsStep ([], [])

/-- The lecturer-conflict pair scan (src/app.py:2554-2575). -/
def lecturerConflictsOfGroups :
    List (String × List LectBooking) → List LecturerConflictRec
  | [] => []
  | (lect, slots) :: rest =>
    ((orderedPairs slots).filterMap (fun p =>
      if p.1.day = p.2.day ∧ p.1.s < p.2.e ∧ p.2.s < p.1.e then
        some ⟨lect, p.1.day, p.1.course, p.1.room, (p.1.s, p.1.e),
              p.2.course, p.2.room, (p.2.s, p.2.e), p.1.mongoId, p.2.mongoId⟩
      else none)) ++ lecturerConflictsOfGroups rest

/-- The room-conflict pair scan (src/app.py:2578-2598). -/
def roomConflictsOfGroups :
    List ((String × String) × List RoomBooking) → List RoomConflictRec
  | [] => []
  | ((day, room), slots) :: rest =>
    ((orderedPairs slots).filterMap (fun p =>
      if p.1.s < p.2.e ∧ p.2.s < p.1.e then
        some ⟨room, day, p.1.course, p.1.lect, (p.1.s, p.1.e),
              p.2.course, p.2.lect, (p.2.s, p.2.e), p.1.mongoId, p.2.mongoId⟩
      else none)) ++ roomConflictsOfGroups rest

/-- `check_schedule_conflicts` (src/app.py:2511-2603). -/
def check_schedule_conflicts (schedule : List CSlot) : ConflictsResult :=
  if schedule.isEmpty then ⟨[], []⟩
  else
    let groups := buildConflictGroups schedule
    ⟨lecturerConflictsOfGroups groups.1, roomConflictsOfGroups groups.2⟩

/-- Helper: `groupAppend` preserves any property of the group keys, given
the inserted key satisfies it. -/
theorem groupAppend_key_prop {κ ν : Type} [BEq κ] (Q : κ → Prop) (k : κ) (v : ν) :
    ∀ (m : List (κ × List ν)), (∀ g ∈ m, Q g.1) → Q k →
      ∀ g ∈ groupAppend k v m, Q g.1 := by
  intro m
  induction m with
  | nil =>
    intro _ hk g hg
    simp only [groupAppend, List.mem_singleton] at hg
    subst hg
    exact hk
  | cons hd rest ih =>
    intro hm hk g hg
    obtain ⟨k0, vs⟩ := hd
    simp only [groupAppend] at hg
    split at hg
    · rcases List.mem_cons.mp hg with h | h
      · subst h
        exact hm (k0, vs) (List.mem_cons_self _ _)
      · exact hm g (List.mem_cons_of_mem _ h)
    · rcases List.mem_cons.mp hg with h | h
      · subst h
        exact hm _ (List.mem_cons_self _ _)
      · exact ih (fun g' hg' => hm g' (List.mem_cons_of_mem _ hg')) hk g h

/-- Helper: every room-group key produced by `conflictGroupsStep` names a
room different from "ONLINE" (src/app.py:2551). -/
theorem conflictGroupsStep_room_keys
    (acc : List (String × List LectBooking) ×
           List ((String × String) × List RoomBooking)) (slot : CSlot)
    (h : ∀ g ∈ acc.2, g.1.2 ≠ "ONLINE") :
    ∀ g ∈ (conflictGroupsStep acc slot).2, g.1.2 ≠ "ONLINE" := by
  unfold conflictGroupsStep
  cases hday : slot.day with
  | none => exact h
  | some day =>
    cases hroom : slot.room with
    | none => exact h
    | some room =>
      cases hs : slot.startT with
      | none => exact h
      | some s =>
        cases he : slot.endT with
        | none => exact h
        | some e =>
          dsimp only
          split
          · exact groupAppend_key_prop
              (fun k : String × String => k.2 ≠ "ONLINE") (day, room)
              (⟨s, e, slot.course_name.getD "Unknown", slot.dosen, slot.mongoId⟩ :
                RoomBooking) acc.2 h (by assumption)
          · exact h

/-- Helper: every room-group key of `buildConflictGroups` names a room
different from "ONLINE". -/
theorem buildConflictGroups_room_keys (schedule : List CSlot) :
    ∀ g ∈ (buildConflictGroups schedule).2, g.1.2 ≠ "ONLINE" := by
  have main : ∀ (sl : List CSlot) (acc : List (String × List LectBooking) ×
      List ((String × String) × List RoomBooking)),
      (∀ g ∈ acc.2, g.1.2 ≠ "ONLINE") →
      ∀ g ∈ (sl.foldl conflictGroupsStep acc).2, g.1.2 ≠ "ONLINE" := by
    intro sl
    induction sl with
    | nil => intro acc h; exact h
    | cons hd tl ih =>
      intro acc h
      exact ih (conflictGroupsStep acc hd) (conflictGroupsStep_room_keys acc hd h)
  exact main schedule ([], []) (by simp)

/-- Helper: every conflict produced by `roomConflictsOfGroups` carries the
room name of its group key. -/
theorem roomConflictsOfGroups_room (groups : List ((String × String) × List RoomBooking))
    (h : ∀ g ∈ groups, g.1.2 ≠ "ONLINE") :
    ∀ c ∈ roomConflictsOfGroups groups, c.room ≠ "ONLINE" := by
  induction groups with
  | nil => intro c hc; simp [roomConflictsOfGroups] at hc
  | cons hd rest ih =>
    obtain ⟨⟨day, room⟩, slots⟩ := hd
    intro c hc
    simp only [roomConflictsOfGroups, List.mem_append] at hc
    rcases hc with hc | hc
    · obtain ⟨p, _, hp⟩ := List.mem_filterMap.mp hc
      split at hp
      · have : c.room = room := by
          cases Option.some.injEq .. ▸ hp
          rfl
        rw [this]
        exact h ((day, room), slots) (List.mem_cons_self _ _)
      · simp at hp
    · exact ih (fun g hg => h g (List.mem_cons_of_mem _ hg)) c hc

/-- Claim C5 (amended): `check_schedule_conflicts` reports room overlaps
only for physical rooms — every room conflict it returns names a room
different from the sentinel "ONLINE" (lecturer conflicts are still
reported for ONLINE placements); `build_conflict_report`, by contrast,
treats "ONLINE" like any other room (see the counterexample). -/
theorem c5_amended_no_online_room_conflicts (schedule : List CSlot)
    (c : RoomConflictRec)
    (hc : c ∈ (check_schedule_conflicts schedule).room_conflicts) :
    c.room ≠ "ONLINE" := by
  unfold check_schedule_conflicts at hc
  split at hc
  · simp at hc
  · exact roomConflictsOfGroups_room _ (buildConflictGroups_room_keys schedule) c hc

/-- Python `range(s, e, 10)` over naturals. -/
def pyRange10 (s e : Nat) : List Nat :=
  (List.range ((e - s + 9) / 10)).map (fun k => s + 10 * k)

/-- Occupancy info cached per (day, room/lecturer, minute) key in
`build_conflict_report` (src/app.py:2145-2151, 2171-2177). -/
structure OccInfo where
  course : Option String
  sectionName : Option String
  lecturer : Option String
  room : Option String
  s : Nat
  e : Nat
deriving Repr, DecidableEq

/-- A conflict item of `build_conflict_report` (src/app.py:2129-2143): the
report's "type" tag and "time" string are determined by the list the item
lives in and by `minute`. -/
structure ReportConflict where
  day : String
  minute : Nat
  who : String
  slot : OccInfo
  existing : OccInfo
deriving Repr, DecidableEq

/-- Result of `build_conflict_report` (src/app.py:2178-2183). -/
structure ConflictReport where
  room_conflict_count : Nat
  lecturer_conflict_count : Nat
  room_conflicts_sample : List ReportConflict
  lecturer_conflicts_sample : List ReportConflict
deriving Repr, DecidableEq

/-- `build_conflict_report` (src/app.py:2104-2183): 10-minute sweep over
every slot, with occupancy maps keyed (day, room, minute) and
(day, lecturer, minute).  Note there is NO exclusion of the "ONLINE" room
here, unlike `check_schedule_conflicts`. -/
def build_conflict_report (schedule : List CSlot) : ConflictReport :=
  let res := schedule.foldl
    (fun (acc : List ((String × String × Nat) × OccInfo) ×
                List ((String × String × Nat) × OccInfo) ×
                List ReportConflict × List ReportConflict) slot =>
      let endMin : Option Nat :=
        match slot.endT with
        | some e => some e
        | none => slot.startT.map
            (· + (if slot.sks = some 1 ∨ slot.sks = some 2 then 100 else 150))
      match slot.day, slot.startT, endMin with
      | some day, some s, some e =>
        (pyRange10 s e).foldl
          (fun acc minute =>
            let acc :=
              match slot.room with
              | some room =>
                match acc.1.lookup (day, room, minute) with
                | some existing =>
                  (acc.1, acc.2.1, acc.2.2.1 ++
                    [⟨day, minute, room,
                      ⟨slot.course_name, slot.section_name, slot.dosen, none, s, e⟩,
                      existing⟩], acc.2.2.2)
                | none =>
                  (acc.1 ++ [((day, room, minute),
                    ⟨slot.course_name, slot.section_name, slot.dosen, none, s, e⟩)],
                   acc.2.1, acc.2.2.1, acc.2.2.2)
              | none => acc
            match slot.dosen with
            | some lect =>
              match acc.2.1.lookup (day, lect, minute) with
              | some existing =>
                (acc.1, acc.2.1, acc.2.2.1, acc.2.2.2 ++
                  [⟨day, minute, lect,
                    ⟨slot.course_name, slot.section_name, none, slot.room, s, e⟩,
                    existing⟩])
              | none =>
                (acc.1, acc.2.1 ++ [((day, lect, minute),
                  ⟨slot.course_name, slot.section_name, none, slot.room, s, e⟩)],
                 acc.2.2.1, acc.2.2.2)
            | none => acc)
          acc
      | _, _, _ => acc)
    ([], [], [], [])
  ⟨res.2.2.1.length, res.2.2.2.length, res.2.2.1.take 50, res.2.2.2.take 50⟩

/-- Two overlapping placements in the virtual room "ONLINE" on the same
day (C5 input). -/
def onlineSlot1 : CSlot :=
  ⟨some "Senin", some "ONLINE", some "Dosen A", some 480, some 580,
   some "MK1", some "A1", some 2, some 1⟩

/-- Second overlapping ONLINE placement, different lecturer. -/
def onlineSlot2 : CSlot :=
  ⟨some "Senin", some "ONLINE", some "Dosen B", some 480, some 580,
   some "MK2", some "B1", some 2, some 2⟩

/-- Counterexample to claim C5 as stated: `build_conflict_report` — one of
the two conflict detectors the claim covers — DOES count room conflicts
for the sentinel room "ONLINE": two overlapping ONLINE placements on the
same day yield 10 room-conflict items (one per shared 10-minute step),
not zero. -/
theorem c5_counterexample :
    onlineSlot1.room = some "ONLINE" ∧
    onlineSlot2.room = some "ONLINE" ∧
    (build_conflict_report [onlineSlot1, onlineSlot2]).room_conflict_count = 10 ∧
    (10 : Nat) ≠ 0 := by
  refine ⟨rfl, rfl, by decide, by omega⟩

/-- Two overlapping physical-room placements (witness input for the
amended C5 theorem). -/
def physSlot1 : CSlot :=
  ⟨some "Senin", some "Infor 1", some "Dosen A", some 480, some 580,
   some "MK1", some "A1", some 2, some 1⟩

/-- Second overlapping placement in the same physical room. -/
def physSlot2 : CSlot :=
  ⟨some "Senin", some "Infor 1", some "Dosen B", some 530, some 630,
   some "MK2", some "B1", some 2, some 2⟩

/-- The room conflict `check_schedule_conflicts` reports for
`[physSlot1, physSlot2]`. -/
def physConflict : RoomConflictRec :=
  ⟨"Infor 1", "Senin", "MK1", some "Dosen A", (480, 580),
   "MK2", some "Dosen B", (530, 630), some 1, some 2⟩

/-- Witness for the amended C5 theorem: a concrete reported room conflict,
shown (via the theorem) to name a physical room. -/
theorem c5_amended_witness :
    physConflict ∈ (check_schedule_conflicts [physSlot1, physSlot2]).room_conflicts ∧
    physConflict.room ≠ "ONLINE" :=
  ⟨by decide, c5_amended_no_online_room_conflicts [physSlot1, physSlot2]
    physConflict (by decide)⟩

/-! ### Section generator, tier 1: lecturer↔course assignment
(src/app.py:4588-4672)

Lecturers are modelled by their name list; a course by its `selected_by`
name list.  The random draws of `random.sample` / `random.randint` are
passed in as explicit oracles. -/

/-- `lecturer_index_map` (src/app.py:4589): name → index; a duplicated
name maps to its last index, as in a Python dict comprehension. -/
def lecturer_index_map (lecturers : List String) (name : String) : Option Nat :=
  ((lecturers.enum.filter (fun p => p.2 == name)).map (·.1)).getLast?

/-- `allowed_indices_per_course` (src/app.py:4590-4598): the indices of
the `selected_by` lecturers that exist, falling back to all lecturers when
none do. -/
def allowed_indices_per_course (lecturers : List String)
    (courses : List (List String)) : List (List Nat) :=
  courses.map (fun selected =>
    let allowed := selected.filterMap (lecturer_index_map lecturers)
    if allowed.isEmpty then List.range lecturers.length else allowed)

/-- Inner loop of `create_assignment` (src/app.py:4614-4624), recursing
over the per-course allowed lists with the running course index.
`sample i candidates k` models `random.sample(candidates, k)` and
`nd i` the draw `random.randint(1, max_pick)`. -/
def create_assignment_aux (numLecturers : Nat)
    (sample : Nat → List Nat → Nat → List Nat) (nd : Nat → Nat) :
    Nat → List (List Nat) → List (List Nat)
  | _, [] => []
  | i, allowed :: rest =>
    (let candidates := if allowed.isEmpty then List.range numLecturers else allowed
     let max_pick := min 3 candidates.length
     let num_dosens := if 0 < max_pick then nd i else 1
     if candidates.isEmpty then [] else sample i candidates num_dosens) ::
    create_assignment_aux numLecturers sample nd (i + 1) rest

/-- `create_assignment` (src/app.py:4614-4624). -/
def create_assignment (lecturers : List String) (courses : List (List String))
    (sample : Nat → List Nat → Nat → List Nat) (nd : Nat → Nat) :
    List (List Nat) :=
  create_assignment_aux lecturers.length sample nd 0
    (allowed_indices_per_course lecturers courses)

/-- The invariant claimed by C8: every assigned lecturer index of every
course lies in that course's allowed list. -/
def assignment_respects_selected_by (lecturers : List String)
    (courses : List (List String)) (assignment : List (List Nat)) : Bool :=
  assignment.length == courses.length &&
  ((allowed_indices_per_course lecturers courses).zip assignment).all
    (fun p => p.2.all (fun j => p.1.contains j))

/-- `allowed_set` as recomputed inside `evaluate_assignment`
(src/app.py:4635). -/
def allowedSet (lecturers : List String) (courses : List (List String))
    (ci : Nat) : List Nat :=
  let al := (allowed_indices_per_course lecturers courses).getD ci []
  if al.isEmpty then List.range lecturers.length else al

/-- `evaluate_assignment` (src/app.py:4629-4654): 100000 per assignment
outside the allowed set (such assignments are skipped from the per-dosen
course sets), then 50000 / 5000 / 2000-per-extra penalties on the number
of distinct courses per lecturer. -/
def evaluate_assignment (lecturers : List String) (courses : List (List String))
    (individual : List (List Nat)) : Nat :=
  let pairPenalty := (individual.enum.map (fun p =>
    (p.2.map (fun lidx =>
      if (allowedSet lecturers courses p.1).contains lidx then 0 else 100000)).sum)).sum
  let coursePenalty := (lecturers.dedup.map (fun name =>
    let c := (List.range individual.length).countP (fun ci =>
      (individual.getD ci []).any (fun lidx =>
        (allowedSet lecturers courses ci).contains lidx &&
        (lecturers.getD lidx "" == name)))
    if c = 0 then 50000
    else if c = 1 then 5000
    else if 3 < c then (c - 3) * 2000
    else 0)).sum
  pairPenalty + coursePenalty

/-- Swap two positions of a list (no-op when out of range, as the DEAP
draw never is). -/
def listSwap {α : Type} (l : List α) (i j : Nat) : List α :=
  match l.get? i, l.get? j with
  | some a, some b => (l.set i b).set j a
  | _, _ => l

/-- `tools.mutShuffleIndexes`, the tier-1 mutation operator registered at
src/app.py:4659.  Modelled from the DEAP library implementation: for each
position `i`, an optional draw `some r` (with `r` uniform on
`[0, size-2]`) swaps position `i` with position `r`, bumped by one when
`r ≥ i`; `none` leaves the position untouched.  Crucially, it permutes
the per-course lecturer sets ACROSS course positions. -/
def mutShuffleIndexes {α : Type} (ind : List α) (decisions : List (Option Nat)) :
    List α :=
  (List.range ind.length).foldl
    (fun acc i =>
      match decisions.getD i none with
      | some r =>
        let swap_indx := if i ≤ r then r + 1 else r
        listSwap acc i swap_indx
      | none => acc)
    ind

/-- Counterexample to claim C8 as stated: with lecturers L0, L1 and two
courses selected by exactly L0 resp. L1, the valid individual [[0],[1]]
mutates (one shuffle draw) into [[1],[0]], which assigns each course a
lecturer OUTSIDE its selectedBy list; the fitness only penalizes this
(300000 = 2×100000 + 2×50000), it does not forbid it, so individuals
produced by the assignment phase can violate the claimed invariant. -/
theorem c8_counterexample :
    assignment_respects_selected_by ["L0", "L1"] [["L0"], ["L1"]] [[0], [1]] = true ∧
    mutShuffleIndexes [[0], [1]] [some 0, none] = [[1], [0]] ∧
    assignment_respects_selected_by ["L0", "L1"] [["L0"], ["L1"]] [[1], [0]] = false ∧
    evaluate_assignment ["L0", "L1"] [["L0"], ["L1"]] [[1], [0]] = 300000 := by
  refine ⟨by decide, by decide, by decide, by decide⟩

/-- Helper: an `allowed_indices_per_course` entry is empty only when
there are no lecturers at all (the fallback `range` is empty). -/
theorem allowed_indices_entry_empty (lecturers : List String)
    (courses : List (List String)) :
    ∀ a ∈ allowed_indices_per_course lecturers courses,
      a.isEmpty = true → lecturers.length = 0 := by
  intro a ha hemp
  unfold allowed_indices_per_course at ha
  obtain ⟨selected, _, hsel⟩ := List.mem_map.mp ha
  by_cases hf : (selected.filterMap (lecturer_index_map lecturers)).isEmpty
  · rw [if_pos hf] at hsel
    subst hsel
    rw [List.isEmpty_iff] at hemp
    simpa [List.range_eq_nil] using hemp
  · rw [if_neg hf] at hsel
    subst hsel
    exact absurd hemp hf

/-- Helper: each entry produced by `create_assignment_aux` is a subset of
its course's allowed list, provided every empty allowed list arises only
when there are no lecturers. -/
theorem create_assignment_aux_respects (numLecturers : Nat)
    (sample : Nat → List Nat → Nat → List Nat) (nd : Nat → Nat)
    (hsample : ∀ i l k, ∀ x ∈ sample i l k, x ∈ l) :
    ∀ (al : List (List Nat)) (i0 : Nat),
      (∀ a ∈ al, a.isEmpty = true → numLecturers = 0) →
      ((al.zip (create_assignment_aux numLecturers sample nd i0 al)).all
        (fun p => p.2.all (fun j => p.1.contains j))) = true := by
  intro al
  induction al with
  | nil => intro i0 _; rfl
  | cons allowed rest ih =>
    intro i0 hal
    rw [create_assignment_aux]
    simp only [List.zip_cons_cons, List.all_cons, Bool.and_eq_true]
    refine ⟨?_, ih (i0 + 1) (fun a ha => hal a (List.mem_cons_of_mem _ ha))⟩
    rw [List.all_eq_true]
    intro j hj
    by_cases hemp : allowed.isEmpty
    · -- empty allowed list forces numLecturers = 0, so no candidate exists
      exfalso
      have h0 : numLecturers = 0 := hal allowed (List.mem_cons_self _ _) hemp
      simp only [hemp, if_true, h0, List.range_zero, List.isEmpty_nil] at hj
      simp at hj
    · simp only [hemp, Bool.false_eq_true, if_false] at hj
      have := hsample i0 allowed _ j hj
      simpa using this

/-- Helper: `create_assignment_aux` returns one entry per allowed list. -/
theorem create_assignment_aux_length (numLecturers : Nat)
    (sample : Nat → List Nat → Nat → List Nat) (nd : Nat → Nat) :
    ∀ (al : List (List Nat)) (i0 : Nat),
      (create_assignment_aux numLecturers sample nd i0 al).length = al.length := by
  intro al
  induction al with
  | nil => intro i0; rfl
  | cons allowed rest ih =>
    intro i0
    rw [create_assignment_aux]
    simp [ih (i0 + 1)]

/-- Claim C8 (amended): individuals CREATED by `create_assignment` always
respect `selected_by` — every assigned index lies in the course's allowed
list (which, when at least one selectedBy name names an existing lecturer,
consists exactly of indices of selectedBy names, second conjunct) — but
this is only an initialization invariant: shuffle mutation can move the
per-course lecturer sets across courses (see the counterexample), and the
fitness merely penalizes out-of-set assignments by 100000 each. -/
theorem c8_amended_create_assignment_respects (lecturers : List String)
    (courses : List (List String))
    (sample : Nat → List Nat → Nat → List Nat) (nd : Nat → Nat)
    (hsample : ∀ i l k, ∀ x ∈ sample i l k, x ∈ l) :
    assignment_respects_selected_by lecturers courses
      (create_assignment lecturers courses sample nd) = true ∧
    (∀ selected : List String, ∀ j : Nat,
      (selected.filterMap (lecturer_index_map lecturers)).isEmpty = false →
      j ∈ (let allowed := selected.filterMap (lecturer_index_map lecturers)
           if allowed.isEmpty then List.range lecturers.length else allowed) →
      ∃ name ∈ selected, lecturer_index_map lecturers name = some j) := by
  constructor
  · unfold assignment_respects_selected_by create_assignment
    rw [Bool.and_eq_true]
    constructor
    · rw [create_assignment_aux_length]
      simp [allowed_indices_per_course]
    · exact create_assignment_aux_respects lecturers.length sample nd hsample
        (allowed_indices_per_course lecturers courses) 0
        (allowed_indices_entry_empty lecturers courses)
  · intro selected j hne hj
    simp only [hne, Bool.false_eq_true, if_false] at hj
    obtain ⟨name, hname, hmap⟩ := List.mem_filterMap.mp hj
    exact ⟨name, hname, hmap⟩

/-- Witness for the amended C8 theorem: the concrete sample oracle that
takes the first k candidates. -/
theorem c8_amended_witness :
    assignment_respects_selected_by ["L0", "L1"] [["L0"], ["L1"]]
      (create_assignment ["L0", "L1"] [["L0"], ["L1"]]
        (fun _ l k => l.take k) (fun _ => 1)) = true ∧
    (∀ selected : List String, ∀ j : Nat,
      (selected.filterMap (lecturer_index_map ["L0", "L1"])).isEmpty = false →
      j ∈ (let allowed := selected.filterMap (lecturer_index_map ["L0", "L1"])
           if allowed.isEmpty then List.range (["L0", "L1"] : List String).length
           else allowed) →
      ∃ name ∈ selected, lecturer_index_map ["L0", "L1"] name = some j) :=
  c8_amended_create_assignment_respects ["L0", "L1"] [["L0"], ["L1"]]
    (fun _ l k => l.take k) (fun _ => 1)
    (fun _ l _ _ hx => List.take_subset _ l hx)

/-! ### Section generator, tier 2: section-count repair
(`repair_solution`, src/app.py:4745-4847)

`pairs` is the `dosen_course_pairs` list of (lecturer index, course index);
`courses` is modelled by its per-course `sks` list (the source reads
`courses_list[course_idx].get('sks', 3)`); an individual is one section
count per pair. -/

/-- `MIN_SKS_PER_DOSEN` (src/app.py:48). -/
def MIN_SKS_PER_DOSEN : Nat := 8

/-- `MAX_SKS_PER_DOSEN` (src/app.py:49). -/
def MAX_SKS_PER_DOSEN : Nat := 12

/-- The lecturer name owning pair `i` (`lecturers_list[pairs[i][0]]['name']`). -/
def pairLectName (lecturers : List String) (pairs : List (Nat × Nat)) (i : Nat) :
    String :=
  lecturers.getD (pairs.getD i (0, 0)).1 ""

/-- The sks of pair `i`'s course (`courses_list[pairs[i][1]].get('sks', 3)`). -/
def pairSks (courses : List Nat) (pairs : List (Nat × Nat)) (i : Nat) : Nat :=
  courses.getD (pairs.getD i (0, 0)).2 3

/-- `dosen_sks[name]` (src/app.py:4757-4764): total credit hours of a
lecturer under the given individual. -/
def dosen_sks (lecturers : List String) (courses : List Nat)
    (pairs : List (Nat × Nat)) (individual : List Nat) (name : String) : Nat :=
  ((pairs.zip individual).map (fun pn =>
    if lecturers.getD pn.1.1 "" == name then pn.2 * courses.getD pn.1.2 3 else 0)).sum

/-- `dosen_indices[name]` (src/app.py:4758-4765): the indices of the
lecturer's pairs, in order.  Python's `enumerate(zip(pairs, individual))`
ranges over the shorter of the two lists. -/
def dosen_indices (lecturers : List String) (pairs : List (Nat × Nat))
    (individual : List Nat) (name : String) : List Nat :=
  (List.range (min pairs.length individual.length)).filter
    (fun i => pairLectName lecturers pairs i == name)

/-- One increase step (src/app.py:4786-4793): bump the first index whose
count is still below 5. -/
def incOnce (sorted_indices : List Nat) (ind : List Nat) : List Nat :=
  match sorted_indices.find? (fun idx => decide (ind.getD idx 0 < 5)) with
  | some idx => ind.set idx (ind.getD idx 0 + 1)
  | none => ind

/-- `for _ in range(gap)` around the increase step (src/app.py:4784). -/
def incMany (sorted_indices : List Nat) : Nat → List Nat → List Nat
  | 0, ind => ind
  | g + 1, ind => incMany sorted_indices g (incOnce sorted_indices ind)

/-- One decrease step (src/app.py:4807-4814): drop the first index whose
count is still above 1. -/
def decOnce (sorted_indices : List Nat) (ind : List Nat) : List Nat :=
  match sorted_indices.find? (fun idx => decide (1 < ind.getD idx 0)) with
  | some idx => ind.set idx (ind.getD idx 0 - 1)
  | none => ind

/-- `for _ in range(gap)` around the decrease step (src/app.py:4805). -/
def decMany (sorted_indices : List Nat) : Nat → List Nat → List Nat
  | 0, ind => ind
  | g + 1, ind => decMany sorted_indices g (decOnce sorted_indices ind)

/-- Handling of one lecturer inside a repair iteration
(src/app.py:4770-4814).  `snapshot` is the individual as it was when
`dosen_sks` was computed at the top of the iteration; `acc` is the
individual being mutated (each lecturer only touches its own pair
indices, which are disjoint across lecturers). -/
def repairDosenStep (lecturers : List String) (courses : List Nat)
    (pairs : List (Nat × Nat)) (snapshot : List Nat) (acc : List Nat)
    (name : String) : List Nat :=
  let total := dosen_sks lecturers courses pairs snapshot name
  if total = 0 then acc
  else if total < MIN_SKS_PER_DOSEN then
    let indices := dosen_indices lecturers pairs snapshot name
    let sorted_indices := indices.insertionSort
      (fun a b => pairSks courses pairs a ≤ pairSks courses pairs b)
    incMany sorted_indices (MIN_SKS_PER_DOSEN - total) acc
  else if MAX_SKS_PER_DOSEN < total then
    let indices := dosen_indices lecturers pairs snapshot name
    let sorted_indices := indices.insertionSort
      (fun a b => pairSks courses pairs b ≤ pairSks courses pairs a)
    decMany sorted_indices (total - MAX_SKS_PER_DOSEN) acc
  else acc

/-- One iteration of the `while` loop (src/app.py:4755-4814): per-lecturer
loads are computed once from the iteration-start individual, then each
lecturer (dict keys: the lecturer list, duplicates collapsed) is nudged. -/
def repairPass (lecturers : List String) (courses : List Nat)
    (pairs : List (Nat × Nat)) (ind : List Nat) : List Nat :=
  lecturers.dedup.foldl (repairDosenStep lecturers courses pairs ind) ind

/-- `all_valid` of an iteration (src/app.py:4767-4799): every lecturer
with non-zero load is within [8,12]. -/
def repairValid (lecturers : List String) (courses : List Nat)
    (pairs : List (Nat × Nat)) (ind : List Nat) : Bool :=
  lecturers.dedup.all (fun name =>
    let t := dosen_sks lecturers courses pairs ind name
    t == 0 || (decide (MIN_SKS_PER_DOSEN ≤ t) && decide (t ≤ MAX_SKS_PER_DOSEN)))

/-- The `while iteration < max_iterations` loop (src/app.py:4752-4817):
when the snapshot is already compliant an iteration changes nothing and
breaks, so the loop equals fuelled iteration with an early exit. -/
def repairLoop (lecturers : List String) (courses : List Nat)
    (pairs : List (Nat × Nat)) : Nat → List Nat → List Nat
  | 0, ind => ind
  | fuel + 1, ind =>
    if repairValid lecturers courses pairs ind then ind
    else repairLoop lecturers courses pairs fuel
      (repairPass lecturers courses pairs ind)

/-- `repair_solution` (src/app.py:4745-4825) with its cap of 200
iterations. -/
def repair_solution (lecturers : List String) (courses : List Nat)
    (pairs : List (Nat × Nat)) (ind : List Nat) : List Nat :=
  repairLoop lecturers courses pairs 200 ind

/-- `pop2 = [repair_solution(ind, ...) for ind in pop2]`
(src/app.py:4841): the repair applied to every initial-population
individual. -/
def initial_population_repaired (lecturers : List String) (courses : List Nat)
    (pairs : List (Nat × Nat)) (pop : List (List Nat)) : List (List Nat) :=
  pop.map (repair_solution lecturers courses pairs)

/-- `best_section_counts = repair_solution(hof2[0][:], ...)`
(src/app.py:4847): the repair applied to the final best individual. -/
def final_best_repaired (lecturers : List String) (courses : List Nat)
    (pairs : List (Nat × Nat)) (best : List Nat) : List Nat :=
  repair_solution lecturers courses pairs best

/-- Helper: `getD` after `set`, in closed form. -/
theorem getD_set_formula (l : List Nat) (i j v : Nat) :
    (l.set i v).getD j 0 = if i = j ∧ i < l.length then v else l.getD j 0 := by
  by_cases hij : i = j
  · subst hij
    by_cases hlen : i < l.length
    · rw [if_pos ⟨rfl, hlen⟩]
      rw [List.getD_eq_getD_get?, List.get?_eq_getElem?, List.getElem?_set_self',
        List.getElem?_eq_getElem hlen]
      rfl
    · rw [if_neg (by tauto)]
      rw [List.getD_eq_getD_get?, List.get?_eq_getElem?, List.getElem?_set_self']
      rw [List.getElem?_eq_none (Nat.le_of_not_lt hlen)]
      rw [List.getD_eq_default _ _ (Nat.le_of_not_lt hlen)]
      rfl
  · rw [if_neg (by tauto)]
    rw [List.getD_eq_getD_get?, List.getD_eq_getD_get?, List.get?_eq_getElem?,
      List.get?_eq_getElem?, List.getElem?_set_ne hij]

/-- Helper: bounds [1,5] are preserved by one increase step. -/
theorem incOnce_bounds (s : List Nat) (ind : List Nat)
    (h : ∀ x ∈ ind, 1 ≤ x ∧ x ≤ 5) : ∀ x ∈ incOnce s ind, 1 ≤ x ∧ x ≤ 5 := by
  unfold incOnce
  cases hf : s.find? (fun idx => decide (ind.getD idx 0 < 5)) with
  | none => exact h
  | some idx =>
    intro x hx
    rcases List.mem_or_eq_of_mem_set hx with hmem | heq
    · exact h x hmem
    · have hcond := List.find?_some hf
      simp only [decide_eq_true_eq] at hcond
      omega

/-- Helper: bounds [1,5] are preserved by one decrease step. -/
theorem decOnce_bounds (s : List Nat) (ind : List Nat)
    (h : ∀ x ∈ ind, 1 ≤ x ∧ x ≤ 5) : ∀ x ∈ decOnce s ind, 1 ≤ x ∧ x ≤ 5 := by
  unfold decOnce
  cases hf : s.find? (fun idx => decide (1 < ind.getD idx 0)) with
  | none => exact h
  | some idx =>
    intro x hx
    rcases List.mem_or_eq_of_mem_set hx with hmem | heq
    · exact h x hmem
    · have hcond := List.find?_some hf
      simp only [decide_eq_true_eq] at hcond
      have hlt : idx < ind.length := by
        by_contra hge
        rw [List.getD_eq_default _ _ (Nat.le_of_not_lt hge)] at hcond
        omega
      have hv : ind.getD idx 0 ∈ ind := by
        rw [List.getD_eq_getElem _ _ hlt]
        exact List.getElem_mem hlt
      have := h _ hv
      omega

/-- Helper: bounds [1,5] are preserved by `incMany`. -/
theorem incMany_bounds (s : List Nat) :
    ∀ (g : Nat) (ind : List Nat), (∀ x ∈ ind, 1 ≤ x ∧ x ≤ 5) →
      ∀ x ∈ incMany s g ind, 1 ≤ x ∧ x ≤ 5 := by
  intro g
  induction g with
  | zero => intro ind h; exact h
  | succ g ih => intro ind h; exact ih _ (incOnce_bounds s ind h)

/-- Helper: bounds [1,5] are preserved by `decMany`. -/
theorem decMany_bounds (s : List Nat) :
    ∀ (g : Nat) (ind : List Nat), (∀ x ∈ ind, 1 ≤ x ∧ x ≤ 5) →
      ∀ x ∈ decMany s g ind, 1 ≤ x ∧ x ≤ 5 := by
  intro g
  induction g with
  | zero => intro ind h; exact h
  | succ g ih => intro ind h; exact ih _ (decOnce_bounds s ind h)

/-- Helper: bounds [1,5] are preserved by one lecturer's repair step. -/
theorem repairDosenStep_bounds (lecturers : List String) (courses : List Nat)
    (pairs : List (Nat × Nat)) (snapshot acc : List Nat) (name : String)
    (h : ∀ x ∈ acc, 1 ≤ x ∧ x ≤ 5) :
    ∀ x ∈ repairDosenStep lecturers courses pairs snapshot acc name,
      1 ≤ x ∧ x ≤ 5 := by
  unfold repairDosenStep
  dsimp only
  split
  · exact h
  · split
    · exact incMany_bounds _ _ acc h
    · split
      · exact decMany_bounds _ _ acc h
      · exact h

/-- Helper: bounds [1,5] are preserved by a whole repair iteration. -/
theorem repairPass_bounds (lecturers : List String) (courses : List Nat)
    (pairs : List (Nat × Nat)) (ind : List Nat)
    (h : ∀ x ∈ ind, 1 ≤ x ∧ x ≤ 5) :
    ∀ x ∈ repairPass lecturers courses pairs ind, 1 ≤ x ∧ x ≤ 5 := by
  unfold repairPass
  have main : ∀ (names : List String) (acc : List Nat),
      (∀ x ∈ acc, 1 ≤ x ∧ x ≤ 5) →
      ∀ x ∈ names.foldl (repairDosenStep lecturers courses pairs ind) acc,
        1 ≤ x ∧ x ≤ 5 := by
    intro names
    induction names with
    | nil => intro acc hacc; exact hacc
    | cons n rest ih =>
      intro acc hacc
      exact ih _ (repairDosenStep_bounds lecturers courses pairs ind acc n hacc)
  exact main lecturers.dedup ind h

/-- Helper: bounds [1,5] are preserved by the fuelled repair loop. -/
theorem repairLoop_bounds (lecturers : List String) (courses : List Nat)
    (pairs : List (Nat × Nat)) :
    ∀ (fuel : Nat) (ind : List Nat), (∀ x ∈ ind, 1 ≤ x ∧ x ≤ 5) →
      ∀ x ∈ repairLoop lecturers courses pairs fuel ind, 1 ≤ x ∧ x ≤ 5 := by
  intro fuel
  induction fuel with
  | zero => intro ind h; exact h
  | succ fuel ih =>
    intro ind h
    rw [repairLoop]
    split
    · exact h
    · exact ih _ (repairPass_bounds lecturers courses pairs ind h)

/-- Helper: an increase step never lowers any position. -/
theorem incOnce_getD_le (s : List Nat) (ind : List Nat) (j : Nat) :
    ind.getD j 0 ≤ (incOnce s ind).getD j 0 := by
  unfold incOnce
  cases hf : s.find? (fun idx => decide (ind.getD idx 0 < 5)) with
  | none => exact le_refl _
  | some idx =>
    rw [getD_set_formula]
    split
    · rename_i hc
      obtain ⟨hij, _⟩ := hc
      subst hij
      omega
    · exact le_refl _

/-- Helper: a decrease step never raises any position. -/
theorem decOnce_getD_le (s : List Nat) (ind : List Nat) (j : Nat) :
    (decOnce s ind).getD j 0 ≤ ind.getD j 0 := by
  unfold decOnce
  cases hf : s.find? (fun idx => decide (1 < ind.getD idx 0)) with
  | none => exact le_refl _
  | some idx =>
    rw [getD_set_formula]
    split
    · rename_i hc
      obtain ⟨hij, _⟩ := hc
      subst hij
      omega
    · exact le_refl _

/-- Helper: a position changed by an increase step belongs to the index
list. -/
theorem incOnce_touch (s : List Nat) (ind : List Nat) (j : Nat)
    (h : (incOnce s ind).getD j 0 ≠ ind.getD j 0) : j ∈ s := by
  unfold incOnce at h
  cases hf : s.find? (fun idx => decide (ind.getD idx 0 < 5)) with
  | none => rw [hf] at h; exact absurd rfl h
  | some idx =>
    rw [hf, getD_set_formula] at h
    split at h
    · rename_i hc
      obtain ⟨hij, _⟩ := hc
      subst hij
      exact List.mem_of_find?_eq_some hf
    · exact absurd rfl h

/-- Helper: a position changed by a decrease step belongs to the index
list. -/
theorem decOnce_touch (s : List Nat) (ind : List Nat) (j : Nat)
    (h : (decOnce s ind).getD j 0 ≠ ind.getD j 0) : j ∈ s := by
  unfold decOnce at h
  cases hf : s.find? (fun idx => decide (1 < ind.getD idx 0)) with
  | none => rw [hf] at h; exact absurd rfl h
  | some idx =>
    rw [hf, getD_set_formula] at h
    split at h
    · rename_i hc
      obtain ⟨hij, _⟩ := hc
      subst hij
      exact List.mem_of_find?_eq_some hf
    · exact absurd rfl h

/-- Helper: `incMany` never lowers any position. -/
theorem incMany_getD_le (s : List Nat) :
    ∀ (g : Nat) (ind : List Nat) (j : Nat),
      ind.getD j 0 ≤ (incMany s g ind).getD j 0 := by
  intro g
  induction g with
  | zero => intro ind j; exact le_refl _
  | succ g ih =>
    intro ind j
    exact le_trans (incOnce_getD_le s ind j) (ih (incOnce s ind) j)

/-- Helper: `decMany` never raises any position. -/
theorem decMany_getD_le (s : List Nat) :
    ∀ (g : Nat) (ind : List Nat) (j : Nat),
      (decMany s g ind).getD j 0 ≤ ind.getD j 0 := by
  intro g
  induction g with
  | zero => intro ind j; exact le_refl _
  | succ g ih =>
    intro ind j
    exact le_trans (ih (decOnce s ind) j) (decOnce_getD_le s ind j)

/-- Helper: a position changed by `incMany` belongs to the index list. -/
theorem incMany_touch (s : List Nat) :
    ∀ (g : Nat) (ind : List Nat) (j : Nat),
      (incMany s g ind).getD j 0 ≠ ind.getD j 0 → j ∈ s := by
  intro g
  induction g with
  | zero => intro ind j h; exact absurd rfl h
  | succ g ih =>
    intro ind j h
    by_cases hstep : (incOnce s ind).getD j 0 = ind.getD j 0
    · refine ih (incOnce s ind) j ?_
      rw [hstep]
      rw [incMany] at h
      exact h
    · exact incOnce_touch s ind j hstep

/-- Helper: a position changed by `decMany` belongs to the index list. -/
theorem decMany_touch (s : List Nat) :
    ∀ (g : Nat) (ind : List Nat) (j : Nat),
      (decMany s g ind).getD j 0 ≠ ind.getD j 0 → j ∈ s := by
  intro g
  induction g with
  | zero => intro ind j h; exact absurd rfl h
  | succ g ih =>
    intro ind j h
    by_cases hstep : (decOnce s ind).getD j 0 = ind.getD j 0
    · refine ih (decOnce s ind) j ?_
      rw [hstep]
      rw [decMany] at h
      exact h
    · exact decOnce_touch s ind j hstep

/-- Helper: an index of `dosen_indices` for `name` has that lecturer
name. -/
theorem dosen_indices_name (lecturers : List String) (pairs : List (Nat × Nat))
    (individual : List Nat) (name : String) (j : Nat)
    (h : j ∈ dosen_indices lecturers pairs individual name) :
    pairLectName lecturers pairs j = name := by
  unfold dosen_indices at h
  have := (List.mem_filter.mp h).2
  exact eq_of_beq this

/-- Helper: a position raised by one lecturer's repair step implies that
lecturer was under the minimum load at the snapshot and owns the pair. -/
theorem repairDosenStep_inc_dir (lecturers : List String) (courses : List Nat)
    (pairs : List (Nat × Nat)) (snapshot acc : List Nat) (name : String)
    (j : Nat)
    (h : acc.getD j 0 <
      (repairDosenStep lecturers courses pairs snapshot acc name).getD j 0) :
    dosen_sks lecturers courses pairs snapshot name < MIN_SKS_PER_DOSEN ∧
    pairLectName lecturers pairs j = name := by
  unfold repairDosenStep at h
  dsimp only at h
  split at h
  · omega
  · split at h
    · rename_i hunder
      refine ⟨hunder, ?_⟩
      have htouch := incMany_touch _ _ acc j (ne_of_gt h)
      rw [List.mem_insertionSort] at htouch
      exact dosen_indices_name lecturers pairs snapshot name j htouch
    · split at h
      · exact absurd h (not_lt.mpr (decMany_getD_le _ _ acc j))
      · omega

/-- Helper: a position lowered by one lecturer's repair step implies that
lecturer was over the maximum load at the snapshot and owns the pair. -/
theorem repairDosenStep_dec_dir (lecturers : List String) (courses : List Nat)
    (pairs : List (Nat × Nat)) (snapshot acc : List Nat) (name : String)
    (j : Nat)
    (h : (repairDosenStep lecturers courses pairs snapshot acc name).getD j 0 <
      acc.getD j 0) :
    MAX_SKS_PER_DOSEN < dosen_sks lecturers courses pairs snapshot name ∧
    pairLectName lecturers pairs j = name := by
  unfold repairDosenStep at h
  dsimp only at h
  split at h
  · omega
  · split at h
    · exact absurd h (not_lt.mpr (incMany_getD_le _ _ acc j))
    · split at h
      · rename_i hover
        refine ⟨hover, ?_⟩
        have htouch := decMany_touch _ _ acc j (ne_of_lt h)
        rw [List.mem_insertionSort] at htouch
        exact dosen_indices_name lecturers pairs snapshot name j htouch
      · omega

/-- Helper: a position raised over a repair iteration implies its
lecturer was under the minimum load at the iteration snapshot. -/
theorem repairPass_inc_dir (lecturers : List String) (courses : List Nat)
    (pairs : List (Nat × Nat)) (ind : List Nat) (j : Nat)
    (h : ind.getD j 0 < (repairPass lecturers courses pairs ind).getD j 0) :
    dosen_sks lecturers courses pairs ind (pairLectName lecturers pairs j) <
      MIN_SKS_PER_DOSEN := by
  unfold repairPass at h
  have main : ∀ (names : List String) (acc : List Nat),
      acc.getD j 0 <
        (names.foldl (repairDosenStep lecturers courses pairs ind) acc).getD j 0 →
      dosen_sks lecturers courses pairs ind (pairLectName lecturers pairs j) <
        MIN_SKS_PER_DOSEN := by
    intro names
    induction names with
    | nil =>
      intro acc hacc
      rw [List.foldl_nil] at hacc
      exact absurd hacc (lt_irrefl _)
    | cons n rest ih =>
      intro acc hacc
      rw [List.foldl_cons] at hacc
      rcases Nat.lt_trichotomy
        ((repairDosenStep lecturers courses pairs ind acc n).getD j 0)
        (acc.getD j 0) with hlt | heq | hgt
      · -- the step lowered the position: the fold must raise it again later
        exact ih (repairDosenStep lecturers courses pairs ind acc n) (by omega)
      · exact ih (repairDosenStep lecturers courses pairs ind acc n) (by omega)
      · obtain ⟨hcond, hname⟩ :=
          repairDosenStep_inc_dir lecturers courses pairs ind acc n j hgt
        rw [hname]
        exact hcond
  exact main lecturers.dedup ind h

/-- Helper: a position lowered over a repair iteration implies its
lecturer was over the maximum load at the iteration snapshot. -/
theorem repairPass_dec_dir (lecturers : List String) (courses : List Nat)
    (pairs : List (Nat × Nat)) (ind : List Nat) (j : Nat)
    (h : (repairPass lecturers courses pairs ind).getD j 0 < ind.getD j 0) :
    MAX_SKS_PER_DOSEN <
      dosen_sks lecturers courses pairs ind (pairLectName lecturers pairs j) := by
  unfold repairPass at h
  have main : ∀ (names : List String) (acc : List Nat),
      (names.foldl (repairDosenStep lecturers courses pairs ind) acc).getD j 0 <
        acc.getD j 0 →
      MAX_SKS_PER_DOSEN <
        dosen_sks lecturers courses pairs ind (pairLectName lecturers pairs j) := by
    intro names
    induction names with
    | nil =>
      intro acc hacc
      rw [List.foldl_nil] at hacc
      exact absurd hacc (lt_irrefl _)
    | cons n rest ih =>
      intro acc hacc
      rw [List.foldl_cons] at hacc
      rcases Nat.lt_trichotomy
        ((repairDosenStep lecturers courses pairs ind acc n).getD j 0)
        (acc.getD j 0) with hlt | heq | hgt
      · obtain ⟨hcond, hname⟩ :=
          repairDosenStep_dec_dir lecturers courses pairs ind acc n j hlt
        rw [hname]
        exact hcond
      · exact ih (repairDosenStep lecturers courses pairs ind acc n) (by omega)
      · -- the step raised the position: the fold must lower it again later
        exact ih (repairDosenStep lecturers courses pairs ind acc n) (by omega)
  exact main lecturers.dedup ind h

/-- Claim C9: for any individual with per-pair counts in [1,5], the repair
pass (i) keeps every count within [1,5]; (ii) in each iteration raises a
pair's count only when its lecturer's snapshot load is under
`MIN_SKS_PER_DOSEN` and lowers it only when over `MAX_SKS_PER_DOSEN`;
(iii) returns immediately (changing nothing) once every lecturer with
non-zero load sits in [8,12], and always terminates within the 200
iteration cap (the fuelled loop is structurally total); and (iv) is the
function applied to every individual of the initial population and to the
final best individual. -/
theorem c9_repair_solution_properties (lecturers : List String)
    (courses : List Nat) (pairs : List (Nat × Nat)) (ind : List Nat)
    (hin : ∀ x ∈ ind, 1 ≤ x ∧ x ≤ 5) :
    (∀ x ∈ repair_solution lecturers courses pairs ind, 1 ≤ x ∧ x ≤ 5) ∧
    (∀ j : Nat,
      ind.getD j 0 < (repairPass lecturers courses pairs ind).getD j 0 →
      dosen_sks lecturers courses pairs ind (pairLectName lecturers pairs j) <
        MIN_SKS_PER_DOSEN) ∧
    (∀ j : Nat,
      (repairPass lecturers courses pairs ind).getD j 0 < ind.getD j 0 →
      MAX_SKS_PER_DOSEN <
        dosen_sks lecturers courses pairs ind (pairLectName lecturers pairs j)) ∧
    (repairValid lecturers courses pairs ind = true →
      repair_solution lecturers courses pairs ind = ind) ∧
    (∀ pop : List (List Nat), ind ∈ pop →
      repair_solution lecturers courses pairs ind ∈
        initial_population_repaired lecturers courses pairs pop) ∧
    final_best_repaired lecturers courses pairs ind =
      repair_solution lecturers courses pairs ind := by
  refine ⟨repairLoop_bounds lecturers courses pairs 200 ind hin,
    repairPass_inc_dir lecturers courses pairs ind,
    repairPass_dec_dir lecturers courses pairs ind, ?_, ?_, rfl⟩
  · intro hvalid
    unfold repair_solution
    rw [repairLoop]
    rw [if_pos hvalid]
  · intro pop hpop
    unfold initial_population_repaired
    exact List.mem_map_of_mem _ hpop

/-- Witness for C9 at a concrete input: one lecturer with a single
3-credit pair at count 2 (6 sks, under the minimum). -/
theorem c9_repair_witness :
    (∀ x ∈ repair_solution ["L0"] [3] [(0, 0)] [2], 1 ≤ x ∧ x ≤ 5) ∧
    (∀ j : Nat,
      ([2] : List Nat).getD j 0 < (repairPass ["L0"] [3] [(0, 0)] [2]).getD j 0 →
      dosen_sks ["L0"] [3] [(0, 0)] [2] (pairLectName ["L0"] [(0, 0)] j) <
        MIN_SKS_PER_DOSEN) ∧
    (∀ j : Nat,
      (repairPass ["L0"] [3] [(0, 0)] [2]).getD j 0 < ([2] : List Nat).getD j 0 →
      MAX_SKS_PER_DOSEN <
        dosen_sks ["L0"] [3] [(0, 0)] [2] (pairLectName ["L0"] [(0, 0)] j)) ∧
    (repairValid ["L0"] [3] [(0, 0)] [2] = true →
      repair_solution ["L0"] [3] [(0, 0)] [2] = [2]) ∧
    (∀ pop : List (List Nat), [2] ∈ pop →
      repair_solution ["L0"] [3] [(0, 0)] [2] ∈
        initial_population_repaired ["L0"] [3] [(0, 0)] pop) ∧
    final_best_repaired ["L0"] [3] [(0, 0)] [2] =
      repair_solution ["L0"] [3] [(0, 0)] [2] :=
  c9_repair_solution_properties ["L0"] [3] [(0, 0)] [2] (by decide)

/-! ### Repair/reschedule engine
(`_reschedule_lecturer_classes_v2`, src/app.py:3363-3842)

The MongoDB collections are modelled as in-memory lists; "HH:MM" strings
as parsed minutes (`t2m`); Mongo ObjectIds as `Nat`.  Schedule documents
written by this system always carry day/start/end/room, so those fields
are total here.  Logging and the resulting debug strings are omitted. -/

/-- One document of `schedules_collection` as the reschedule engine reads
it. -/
structure SchedDoc where
  id : Nat
  dosen : String
  day : String
  startT : Nat
  endT : Nat
  room : String
  course_name : String
  section_label : String
  course_id : Option Nat
deriving Repr, DecidableEq

/-- One approved `unavailability_reports` document (already filtered to
the reported lecturer and status "approved", as by the Mongo query at
src/app.py:3430-3433).  `time_type` carries the source default
"full_day". -/
structure ApprovedBlock where
  unavailable_days : List String
  unavailable_day : Option String
  time_type : String
  specific_time : Option Nat
  start_time : Option Nat
  end_time : Option Nat
deriving Repr, DecidableEq

/-- The database snapshot the engine works on: the schedules collection,
the reported lecturer's preference record (from `users_collection`), the
lecturer's approved unavailability blocks, and the courses collection
reduced to its `is_lab` flags. -/
structure ReschedDB where
  schedules : List SchedDoc
  prefs : Option Preferences
  approved_blocks : List ApprovedBlock
  courses : List (Nat × Bool)
deriving Repr, DecidableEq

/-- The arguments of `_reschedule_lecturer_classes_v2`
(src/app.py:3363). -/
structure ReschedArgs where
  lecturer_name : String
  unavailable_day : String
  unavailable_days : Option (List String)
  time_type : Option String
  specific_time : Option Nat
  start_time : Option Nat
  end_time : Option Nat
  max_end_time : Nat
  enable_swap : Bool
deriving Repr, DecidableEq

/-- An entry of the per-day `lect_sched` map (src/app.py:3409-3413),
carrying its day. -/
structure LSlot where
  day : String
  startT : Nat
  endT : Nat
  id : Nat
  room : String
deriving Repr, DecidableEq

/-- An entry of the per-day per-room `room_occ` map
(src/app.py:3416-3421), carrying its keys. -/
structure RSlot where
  day : String
  room : String
  startT : Nat
  endT : Nat
deriving Repr, DecidableEq

/-- `source_days` (src/app.py:3380). -/
def rs_source_days (args : ReschedArgs) : List String :=
  match args.unavailable_days with
  | some l => if l.isEmpty then [args.unavailable_day] else l
  | none => [args.unavailable_day]

/-- `allow_day_change` (src/app.py:3381). -/
def rs_allow_day_change (args : ReschedArgs) : Bool :=
  (rs_source_days args).length == 1 ||
  args.time_type == some "specific" || args.time_type == some "range"

/-- `in_block` (src/app.py:3386-3392): whether a time span falls in the
reported block (specific = within ±10 minutes of the start; range =
interval overlap; otherwise the whole day). -/
def rs_in_block (args : ReschedArgs) (s e : Nat) : Bool :=
  if args.time_type == some "specific" && args.specific_time.isSome then
    match args.specific_time with
    | some st => decide (max s st - min s st ≤ 10)
    | none => true
  else if args.time_type == some "range" && args.start_time.isSome
      && args.end_time.isSome then
    match args.start_time, args.end_time with
    | some st, some en => times_overlap s e st en
    | _, _ => true
  else true

/-- `block.get('unavailable_days', []) or [block.get('unavailable_day')]`
(src/app.py:3436, 3444). -/
def rs_blockDays (b : ApprovedBlock) : List (Option String) :=
  if b.unavailable_days.isEmpty then [b.unavailable_day]
  else b.unavailable_days.map some

/-- `is_in_approved_block` (src/app.py:3441-3465). -/
def rs_is_in_approved_block (blocks : List ApprovedBlock) (day : String)
    (ss se : Nat) : Bool :=
  blocks.any (fun b =>
    if !(rs_blockDays b).contains (some day) then false
    else if b.time_type == "full_day" then true
    else
      (if b.time_type == "specific" then
        match b.specific_time with
        | some st => decide (max ss st - min ss st ≤ 10)
        | none => false
       else false) ||
      (if b.time_type == "range" then
        match b.start_time, b.end_time with
        | some bs, some be => times_overlap ss se bs be
        | _, _ => false
       else false))

/-- The weekday list `DAYS` (src/app.py:3467). -/
def rs_DAYS : List String := ["Senin", "Selasa", "Rabu", "Kamis", "Jumat"]

/-- `LAB_ROOMS` (src/app.py:3495). -/
def rs_LAB_ROOMS : List String := ["Lab 1", "Lab 2", "Lab 3", "Lab 4"]

/-- `NON_LAB_ROOMS` (src/app.py:3496). -/
def rs_NON_LAB_ROOMS : List String :=
  ["Infor 1", "Infor 2", "Infor 3", "Infor 4", "Infor 5", "Jawa 8A", "Jawa 8B"]

/-- `target_days` computation (src/app.py:3468-3493): excluded days are
the reported ones plus every full-day approved block's days; preference
days filter the remainder, with two fallbacks. -/
def rs_target_days (db : ReschedDB) (args : ReschedArgs) : List String :=
  if rs_allow_day_change args then
    let fullDayBlockDays := db.approved_blocks.foldl (fun acc b =>
      if b.time_type == "full_day" then acc ++ (rs_blockDays b).filterMap id
      else acc) []
    let excluded := rs_source_days args ++ fullDayBlockDays
    let target := rs_DAYS.filter (fun d => !excluded.contains d)
    let avail := (db.prefs.map Preferences.available_days).getD []
    let target :=
      if !avail.isEmpty then
        let t2 := target.filter (fun d => avail.contains d)
        if t2.isEmpty then avail.filter (fun d => !excluded.contains d) else t2
      else target
    if target.isEmpty then rs_source_days args else target
  else rs_source_days args

/-- `overlaps_lunch` (src/app.py:3505-3512): Monday-Thursday slots that
cross the 13:00-14:00 break are rejected; slots from 14:00 on are fine. -/
def rs_overlaps_lunch (day : String) (cs ce : Nat) : Bool :=
  if day == "Jumat" then false
  else if 840 ≤ cs then false
  else times_overlap cs ce 780 840

/-- `generate_candidates` (src/app.py:3514-3524): starts every 50 minutes
from 08:00, end bounded by `max_end_time` (17:00 fallback when zero). -/
def rs_generate_candidates (max_end_m duration : Nat) : List (Nat × Nat) :=
  let end_limit := if max_end_m = 0 then 1020 else max_end_m
  ((List.range ((end_limit - duration + 1 - 480 + 49) / 50)).map
    (fun k => (480 + 50 * k, 480 + 50 * k + duration))).filter
    (fun p => !decide (end_limit < p.2))

/-- The kind of conflict `conflicts` reports. -/
inductive ConflictKind
  | lecturer
  | room
deriving Repr, DecidableEq

/-- `conflicts` (src/app.py:3526-3540): lecturer overlap is checked FIRST
and returned without ever looking at the room. -/
def rs_conflicts (lect_sched : List LSlot) (room_occ : List RSlot)
    (day : String) (s e : Nat) (room : String) (ignore_id : Option Nat) :
    Option ConflictKind :=
  if (lect_sched.filter (fun sl => sl.day == day)).any (fun sl =>
      !(ignore_id == some sl.id) && times_overlap s e sl.startT sl.endT) then
    some ConflictKind.lecturer
  else if (room_occ.filter (fun r => r.day == day && r.room == room)).any
      (fun r => times_overlap s e r.startT r.endT) then
    some ConflictKind.room
  else none

/-- `blocked` (src/app.py:3580-3582). -/
def rs_blocked (args : ReschedArgs) (day : String) (cs ce : Nat) : Bool :=
  (rs_source_days args).contains day && rs_in_block args cs ce

/-- The hard `unavailable_time_ranges` preference check used by both the
candidate scan (src/app.py:3615-3632) and the swap tier
(src/app.py:3764-3776): blocked ranges reject physical classes only. -/
def rs_pref_allowed (db : ReschedDB) (day : String) (cs ce : Nat)
    (is_online : Bool) : Bool :=
  let prefs := db.prefs.getD ⟨[], [], []⟩
  !(!is_online && prefs.unavailable_time_ranges.any (fun b =>
    blockMatchesDay b day && times_overlap cs ce b.startT b.endT))

/-- The preference score of a candidate slot (src/app.py:3637-3676).
When the class is being moved out of a reported `range` block, scoring
relaxes to 70/40 on `available_days` alone. -/
def rs_pref_score (db : ReschedDB) (args : ReschedArgs) (cls : SchedDoc)
    (day : String) (cs ce : Nat) : Nat :=
  let prefs := db.prefs.getD ⟨[], [], []⟩
  let available_days := prefs.available_days
  let is_reschedule_from_block :=
    args.time_type == some "range" && args.start_time.isSome
    && args.end_time.isSome && (rs_source_days args).contains cls.day
    && (match args.start_time, args.end_time with
        | some st, some en => times_overlap cls.startT cls.endT st en
        | _, _ => false)
  if is_reschedule_from_block then
    if !available_days.isEmpty && available_days.contains day then 70 else 40
  else
    let base : Nat :=
      if !available_days.isEmpty && available_days.contains day then 75 else 50
    match prefs.preferred_times.lookup day with
    | some day_prefs =>
      if !day_prefs.isEmpty then
        if day_prefs.any (fun r => decide (r.1 ≤ cs) && decide (ce ≤ r.2)) then 100
        else if !available_days.isEmpty && available_days.contains day then 60
        else base
      else base
    | none => base

/-- The engine's mutable state: the schedules collection plus the
in-memory `lect_sched` / `room_occ` indexes and the running counters. -/
structure EngineState where
  schedules : List SchedDoc
  lect_sched : List LSlot
  room_occ : List RSlot
  moved : Nat
  failed : List String
deriving Repr, DecidableEq

/-- A member of `valid_candidates` (src/app.py:3689-3696). -/
structure TierCandidate where
  day : String
  startT : Nat
  endT : Nat
  room : String
  score : Nat
  same_room : Bool
deriving Repr, DecidableEq

/-- The candidate ordering of src/app.py:3710
(`sort(key=lambda x: (-x['score'], t2m(x['start'])))`, stable). -/
def rs_candLe (a b : TierCandidate) : Prop :=
  b.score < a.score ∨ (a.score = b.score ∧ a.startT ≤ b.startT)

instance : DecidableRel rs_candLe := fun a b => by
  unfold rs_candLe
  infer_instance

/-- The tier-1 scan (src/app.py:3585-3707): walk preferred days and
candidate times, filter by block / lunch / approved blocks / hard
preference ranges, and keep, per time slot, the first conflict-free room
of `rooms_to_try` (original room first). -/
def rs_collect_candidates (db : ReschedDB) (args : ReschedArgs)
    (st : EngineState) (cls : SchedDoc) (is_online : Bool)
    (room_pool preferred_days : List String) (cand_times : List (Nat × Nat)) :
    List TierCandidate :=
  preferred_days.foldl (fun acc day =>
    cand_times.foldl (fun acc ct =>
      let cs := ct.1
      let ce := ct.2
      if rs_blocked args day cs ce then acc
      else if rs_overlaps_lunch day cs ce then acc
      else if rs_is_in_approved_block db.approved_blocks day cs ce then acc
      else if !rs_pref_allowed db day cs ce is_online then acc
      else
        let score := rs_pref_score db args cls day cs ce
        let rooms_to_try := cls.room :: room_pool.filter (fun r => r ≠ cls.room)
        match rooms_to_try.find? (fun r =>
            (rs_conflicts st.lect_sched st.room_occ day cs ce r none).isNone) with
        | some r => acc ++ [⟨day, cs, ce, r, score, r == cls.room⟩]
        | none => acc) acc) []

/-- Committing the best tier-1 candidate (src/app.py:3715-3740): update
the document (day, times AND room), drop the old index entries, append
the new ones. -/
def rs_applyMove (st : EngineState) (cls : SchedDoc) (best : TierCandidate) :
    EngineState where
  schedules := st.schedules.map (fun d =>
    if d.id == cls.id then
      { d with day := best.day, startT := best.startT, endT := best.endT,
               room := best.room }
    else d)
  lect_sched :=
    (st.lect_sched.filter (fun sl => !(sl.day == cls.day && sl.id == cls.id))) ++
    [⟨best.day, best.startT, best.endT, cls.id, best.room⟩]
  room_occ :=
    (st.room_occ.filter (fun r => !(r.day == cls.day && r.room == cls.room &&
      r.startT == cls.startT && r.endT == cls.endT))) ++
    [⟨best.day, best.room, best.startT, best.endT⟩]
  moved := st.moved + 1
  failed := st.failed

/-- Committing a swap (src/app.py:3800-3823): relocate the blocker to
(bs, be) — keeping its day and room — then place the affected class into
the freed (cs, ce) slot, keeping the class's ORIGINAL room (the document
update at src/app.py:3809 sets day/start/end only), with NO re-check of
conflicts for that placement. -/
def rs_applySwap (st : EngineState) (cls : SchedDoc) (day : String)
    (cs ce : Nat) (b : LSlot) (b_doc : SchedDoc) (bs be : Nat) : EngineState :=
  let schedules1 := st.schedules.map (fun d =>
    if d.id == b.id then { d with startT := bs, endT := be } else d)
  let lect1 :=
    (st.lect_sched.filter (fun sl => !(sl.day == day && sl.id == b.id))) ++
    [⟨day, bs, be, b.id, b_doc.room⟩]
  let rocc1 :=
    (st.room_occ.filter (fun r => !(r.day == day && r.room == b_doc.room &&
      r.startT == b.startT && r.endT == b.endT))) ++
    [⟨day, b_doc.room, bs, be⟩]
  let schedules2 := schedules1.map (fun d =>
    if d.id == cls.id then { d with day := day, startT := cs, endT := ce } else d)
  let lect2 :=
    (lect1.filter (fun sl => !(sl.day == cls.day && sl.id == cls.id))) ++
    [⟨day, cs, ce, cls.id, cls.room⟩]
  let rocc2 :=
    (rocc1.filter (fun r => !(r.day == cls.day && r.room == cls.room &&
      r.startT == cls.startT && r.endT == cls.endT))) ++
    [⟨day, cls.room, cs, ce⟩]
  ⟨schedules2, lect2, rocc2, st.moved + 1, st.failed⟩

/-- The blocker-relocation scan (src/app.py:3791-3824): first candidate
slot for the blocker, different from the freed slot, unblocked and
conflict-free (ignoring the blocker itself), wins. -/
def rs_swapTryBlocker (db : ReschedDB) (args : ReschedArgs) (st : EngineState)
    (cls : SchedDoc) (day : String) (cs ce : Nat) (b : LSlot)
    (b_doc : SchedDoc) : List (Nat × Nat) → Option EngineState
  | [] => none
  | (bs, be) :: rest =>
    if (bs == cs && be == ce) || rs_blocked args day bs be then
      rs_swapTryBlocker db args st cls day cs ce b b_doc rest
    else if rs_is_in_approved_block db.approved_blocks day bs be then
      rs_swapTryBlocker db args st cls day cs ce b b_doc rest
    else if (rs_conflicts st.lect_sched st.room_occ day bs be b_doc.room
        (some b.id)).isSome then
      rs_swapTryBlocker db args st cls day cs ce b b_doc rest
    else
      some (rs_applySwap st cls day cs ce b b_doc bs be)

/-- The swap tier's scan over candidate times on one day
(src/app.py:3745-3826). -/
def rs_swapScanTimes (db : ReschedDB) (args : ReschedArgs) (st : EngineState)
    (cls : SchedDoc) (affected : List SchedDoc) (is_online : Bool)
    (day : String) : List (Nat × Nat) → Option EngineState
  | [] => none
  | (cs, ce) :: rest =>
    if rs_blocked args day cs ce then
      rs_swapScanTimes db args st cls affected is_online day rest
    else if rs_overlaps_lunch day cs ce then
      rs_swapScanTimes db args st cls affected is_online day rest
    else if rs_is_in_approved_block db.approved_blocks day cs ce then
      rs_swapScanTimes db args st cls affected is_online day rest
    else if !rs_pref_allowed db day cs ce is_online then
      rs_swapScanTimes db args st cls affected is_online day rest
    else
      match rs_conflicts st.lect_sched st.room_occ day cs ce cls.room none with
      | some ConflictKind.lecturer =>
        match (st.lect_sched.filter (fun sl => sl.day == day)).filter
            (fun sl => times_overlap cs ce sl.startT sl.endT) with
        | [b] =>
          if !(affected.any (fun a =>
              times_overlap b.startT b.endT a.startT a.endT && a.id == b.id)) then
            match st.schedules.find? (fun d => d.id == b.id) with
            | some b_doc =>
              match rs_swapTryBlocker db args st cls day cs ce b b_doc
                  (rs_generate_candidates args.max_end_time
                    (b.endT - b.startT)) with
              | some st2 => some st2
              | none => rs_swapScanTimes db args st cls affected is_online day rest
            | none => rs_swapScanTimes db args st cls affected is_online day rest
          else rs_swapScanTimes db args st cls affected is_online day rest
        | _ => rs_swapScanTimes db args st cls affected is_online day rest
      | _ => rs_swapScanTimes db args st cls affected is_online day rest

/-- The swap tier's scan over preferred days (src/app.py:3745). -/
def rs_swapScanDays (db : ReschedDB) (args : ReschedArgs) (st : EngineState)
    (cls : SchedDoc) (affected : List SchedDoc) (is_online : Bool)
    (cand_times : List (Nat × Nat)) : List String → Option EngineState
  | [] => none
  | day :: rest =>
    match rs_swapScanTimes db args st cls affected is_online day cand_times with
    | some st2 => some st2
    | none => rs_swapScanDays db args st cls affected is_online cand_times rest

/-- Processing of one affected class (src/app.py:3545-3832): room-pool
resolution with the safety override, tier-1 candidate collection and
commit of the best-scored candidate, then the swap tier, else `failed`. -/
def rs_processClass (db : ReschedDB) (args : ReschedArgs)
    (affected : List SchedDoc) (st : EngineState) (cls : SchedDoc) :
    EngineState :=
  let is_online := cls.room == "ONLINE"
  let duration := cls.endT - cls.startT
  let is_lab0 :=
    match cls.course_id with
    | some cid => (db.courses.lookup cid).getD false
    | none => false
  let is_lab :=
    if rs_NON_LAB_ROOMS.contains cls.room then false
    else if rs_LAB_ROOMS.contains cls.room then true
    else is_lab0
  let room_pool :=
    if is_online then ["ONLINE"]
    else if is_lab then rs_LAB_ROOMS else rs_NON_LAB_ROOMS
  let preferred_days :=
    if rs_allow_day_change args then
      cls.day :: (rs_target_days db args).filter (fun d => d ≠ cls.day)
    else [cls.day]
  let cand_times := rs_generate_candidates args.max_end_time duration
  let valid := rs_collect_candidates db args st cls is_online room_pool
    preferred_days cand_times
  match valid.insertionSort rs_candLe with
  | best :: _ => rs_applyMove st cls best
  | [] =>
    let fallback :=
      { st with failed := st.failed ++
          [cls.course_name ++ " (" ++ cls.section_label ++ ")"] }
    if args.enable_swap then
      match rs_swapScanDays db args st cls affected is_online cand_times
          preferred_days with
      | some st2 => st2
      | none => fallback
    else fallback

/-- The result record returned at src/app.py:3842. -/
structure ReschedResult where
  success : Bool
  moved : Nat
  failedCount : Nat
  failed_courses : List String
  total : Nat
  unaffectedCount : Nat
deriving Repr, DecidableEq

/-- `_reschedule_lecturer_classes_v2` (src/app.py:3363-3842), returning
the result record together with the final schedules collection. -/
def reschedule_lecturer_classes_v2 (db : ReschedDB) (args : ReschedArgs) :
    ReschedResult × List SchedDoc :=
  let raw := ((rs_source_days args).map (fun d =>
    db.schedules.filter (fun s =>
      s.dosen == args.lecturer_name && s.day == d))).flatten
  let affected := raw.filter (fun c => rs_in_block args c.startT c.endT)
  let unaffected := raw.filter (fun c => !rs_in_block args c.startT c.endT)
  if affected.isEmpty then
    (⟨true, 0, 0, [], 0, unaffected.length⟩, db.schedules)
  else
    let lect_sched := (db.schedules.filter (fun s =>
      s.dosen == args.lecturer_name)).map (fun s =>
        (⟨s.day, s.startT, s.endT, s.id, s.room⟩ : LSlot))
    let room_occ := db.schedules.map (fun s =>
      (⟨s.day, s.room, s.startT, s.endT⟩ : RSlot))
    let st0 : EngineState := ⟨db.schedules, lect_sched, room_occ, 0, []⟩
    let stF := affected.foldl (rs_processClass db args affected) st0
    (⟨true, stF.moved, stF.failed.length, stF.failed, affected.length,
      unaffected.length⟩, stF.schedules)

/-- The C1 failing database snapshot: lecturer L has class 1 on Senin
08:00-09:40 in Infor 1 and class 2 on Selasa 08:00-09:40 in Infor 2; a
different lecturer M has class 3 on Selasa 08:00-09:40 in Infor 1.  L is
available only on Selasa and has Selasa 09:40-17:30 blocked, so the only
candidate slot is Selasa 08:00-09:40. -/
def dbC1 : ReschedDB :=
  ⟨[⟨1, "L", "Senin", 480, 580, "Infor 1", "MKA", "A1", none⟩,
    ⟨2, "L", "Selasa", 480, 580, "Infor 2", "MKB", "B1", none⟩,
    ⟨3, "M", "Selasa", 480, 580, "Infor 1", "MKC", "C1", none⟩],
   some ⟨["Selasa"], [], [⟨"Selasa", 580, 1050⟩]⟩,
   [], []⟩

/-- The C1 repair request: L reports full-day unavailability on Senin
(default `max_end_time` 17:30, swap enabled, as invoked by the retry
route at src/app.py:3884-3892). -/
def argsC1 : ReschedArgs :=
  ⟨"L", "Senin", none, none, none, none, none, 1050, true⟩

/-- Claim C1, evaluated at the failing input: the repair run reports the
affected class as moved (moved = 1, failed = []), but the swap tier
committed it into Selasa 08:00-09:40 in room "Infor 1" — the very slot
occupied by lecturer M's class 3 — a room overlap.  `conflicts` returned
'lecturer' for the slot without ever checking the room
(src/app.py:3526-3540), the blocker (class 2) was relocated, and the
affected class was then placed with no conflict re-check
(src/app.py:3809), so the move is NOT conflict-free although it is
counted in `moved`. -/
theorem c1_swap_commits_room_conflict :
    (reschedule_lecturer_classes_v2 dbC1 argsC1).1.moved = 1 ∧
    (reschedule_lecturer_classes_v2 dbC1 argsC1).1.failed_courses = [] ∧
    (reschedule_lecturer_classes_v2 dbC1 argsC1).2.get? 0 =
      some ⟨1, "L", "Selasa", 480, 580, "Infor 1", "MKA", "A1", none⟩ ∧
    (reschedule_lecturer_classes_v2 dbC1 argsC1).2.get? 2 =
      some ⟨3, "M", "Selasa", 480, 580, "Infor 1", "MKC", "C1", none⟩ ∧
    times_overlap 480 580 480 580 = true ∧
    (check_schedule_conflicts
      ((reschedule_lecturer_classes_v2 dbC1 argsC1).2.map (fun d =>
        (⟨some d.day, some d.room, some d.dosen, some d.startT, some d.endT,
          some d.course_name, some d.section_label, none, some d.id⟩ :
          CSlot)))).room_conflicts.length = 1 := by
  refine ⟨?_, ?_, ?_, ?_, ?_, ?_⟩ <;> rfl

end Penjadwalan
